import Mathlib

/-!
Verification of the MINIX kernel IPC and scheduling layer (`src/kernel/proc.c`).

The development shallowly embeds the data model and the operations of
`proc.c`: the process table becomes a list of process records indexed by
process number (the source's `proc_addr` offset convention is kept), the
intrusive singly-linked lists (`p_caller_q` via `p_q_link`, the ready
queues via `p_nextready`, `p_ntf_q` via `n_next`) become Lean lists held
by their owner, message memory becomes a flat map from addresses to
message values (the spec treats `CopyMess` as an opaque byte move between
address spaces), and the `while` loops become structural recursions, with
the potentially unbounded deadlock-detection walk given explicit fuel.
Functions that can panic (`unready`'s stack-guard check) or diverge (the
deadlock walk on a cyclic chain) return `Option`.

Values that live in headers outside the repository snapshot (`proc.h`,
`com.h`, `callnr.h`, `const.h`) are modelled from the spec where the spec
pins them down (SEND = 1, RECEIVE = 2, SENDREC = SEND|RECEIVE) and are
otherwise chosen as distinct constants with the bit structure the code's
tests rely on; none of the claims depends on the particular numbers.
Environment data the kernel reads from elsewhere (the `QUANTUMS` budget
macro, the `id_to_nr`/`nr_to_id` privilege-id maps, `get_uptime`) is
packaged in a `KEnv` record that the theorems quantify over.
-/

namespace Minix

/-- Modelled from the spec: number of kernel task slots (tasks occupy the
negative process numbers, `proc_addr` offsets by `NR_TASKS`); the defining
header is not in `src/`. -/
def NR_TASKS : Int := 4

/-- Modelled from the spec: number of non-task process slots; the defining
header is not in `src/`.  The table has `NR_TASKS + NR_PROCS` slots. -/
def NR_PROCS : Int := 16

/-- Modelled from the spec: the `ANY` sentinel, a value that is not a valid
process number ("`src_dst` is a valid process number, OR equals `ANY`"). -/
def ANY : Int := 0x7ace

/-- Modelled from the spec: the `HARDWARE` pseudo-source, a kernel task
number; the defining header is not in `src/`. -/
def HARDWARE : Int := -1

/-- Modelled from the spec: the `SYSTEM` pseudo-source, a kernel task
number; the defining header is not in `src/`. -/
def SYSTEM : Int := -2

/-- Modelled from the spec: bits per chunk of a `sys_map_t` bitmap; the
defining header is not in `src/`.  Standard MINIX uses one machine word. -/
def BITCHUNK_BITS : Nat := 32

/-- Modelled from the spec: number of system-process ids covered by a
pending bitmap; the defining header is not in `src/`. -/
def NR_SYS_PROCS : Nat := 32

/-- Modelled from the spec: number of scheduling queues; the defining
header is not in `src/`. -/
def NR_SCHED_QUEUES : Nat := 16

/-- Modelled from the spec: the lowest-priority (IDLE) queue index; the
defining header is not in `src/`. -/
def IDLE_Q : Nat := 15

/-- Return value `OK` of the IPC functions. -/
def OK : Int := 0

/-- Modelled from the spec: error codes are distinct small negative
integers; the defining header is not in `src/`. -/
def ELOCKED : Int := -101

/-- Modelled from the spec: unknown system call function. -/
def EBADCALL : Int := -102

/-- Modelled from the spec: invalid `src_dst` endpoint. -/
def EBADSRCDST : Int := -103

/-- Modelled from the spec: privilege failure. -/
def ECALLDENIED : Int := -104

/-- Modelled from the spec: destination slot is empty. -/
def EDEADDST : Int := -105

/-- Modelled from the spec: non-blocking call could not complete. -/
def ENOTREADY : Int := -106

/-- Modelled from the spec: message buffer outside the caller's memory. -/
def EFAULT : Int := -14

/-- Modelled from the spec: notification buffer pool exhausted. -/
def ENOSPC : Int := -28

/-- Modelled from the spec: low bits of `call_nr` select the function. -/
def SYSCALL_FUNC : Nat := 0x0F

/-- Modelled from the spec: high bits of `call_nr` carry the flags. -/
def SYSCALL_FLAGS : Nat := 0xF0

/-- Modelled from the spec: the `NON_BLOCKING` system call flag. -/
def NON_BLOCKING : Nat := 0x10

/-- Modelled from the spec: the `FRESH_ANSWER` system call flag. -/
def FRESH_ANSWER : Nat := 0x20

/-- Function code `SEND`; the spec fixes SEND = 1. -/
def SEND : Nat := 1

/-- Function code `RECEIVE`; the spec fixes RECEIVE = 2. -/
def RECEIVE : Nat := 2

/-- Function code `SENDREC` = SEND|RECEIVE; the spec fixes SENDREC = 3. -/
def SENDREC : Nat := 3

/-- Modelled from the spec: function code `NOTIFY`; it carries a message
(`mini_notify` reads `m_ptr`) and has SEND semantics, so it is chosen with
both the SEND bit and a distinguishing high bit. -/
def NOTIFY : Nat := 5

/-- Modelled from the spec: function code `ALERT`; it carries no message
and the kernel sends it on behalf of tasks, so it is chosen with neither
the SEND nor the RECEIVE bit. -/
def ALERT : Nat := 4

/-- Modelled from the spec: function code `ECHO`; it carries a message but
has no destination, so it is chosen with the RECEIVE bit and a
distinguishing high bit. -/
def ECHO : Nat := 6

/-- Modelled from the spec: `CLICK_SHIFT` for the click-granular message
buffer check; the defining header is not in `src/`. -/
def CLICK_SHIFT : Nat := 10

/-- Modelled from the spec: size in bytes of a `message`; the defining
header is not in `src/`. -/
def MESS_SIZE : Nat := 36

/-- Modelled from the spec: `NOTIFY_FROM(src)` computes the notification
message type for a source; the defining macro is not in `src/`.  Only
injectivity in `src` could matter, none of the claims uses the value. -/
def NOTIFY_FROM (src : Int) : Int := 256 + src

/-- The `p_rts_flags` bit set.  `slot_free` is the `SLOT_FREE` bit,
`sending`/`receiving` are the blocking bits the IPC code manipulates, and
`other` stands for the remaining bits (signals, `NO_MAP`, ...), which the
code only ever tests through `p_rts_flags == 0`. -/
structure Rts where
  slot_free : Bool
  sending : Bool
  receiving : Bool
  other : Bool
deriving DecidableEq, Repr

instance : Inhabited Rts := ⟨⟨false, false, false, false⟩⟩

/-- Test `p_rts_flags == 0` ("runnable"). -/
def Rts.isZero (r : Rts) : Bool :=
  !r.slot_free && !r.sending && !r.receiving && !r.other

/-- Test `p_rts_flags == SLOT_FREE` (`isemptyp`). -/
def Rts.isSlotFree (r : Rts) : Bool :=
  r.slot_free && !r.sending && !r.receiving && !r.other

/-- A `message`.  `NOTIFY_SOURCE` and `NOTIFY_TYPE` alias `m_source` and
`m_type` per the spec's layout; `body` stands for the rest of the payload,
moved opaquely by `CopyMess`. -/
structure Message where
  m_source : Int
  m_type : Int
  notify_timestamp : Int
  notify_arg : Int
  notify_flags : Int
  body : Int
deriving DecidableEq, Repr

instance : Inhabited Message := ⟨⟨0, 0, 0, 0, 0, 0⟩⟩

/-- A notification record from `notify_buffer`; the `n_next` link is
represented by the position of the record's index in the owner's
`p_ntf_q` list. -/
structure Notification where
  n_source : Int
  n_type : Int
  n_flags : Int
  n_arg : Int
deriving DecidableEq, Repr

instance : Inhabited Notification := ⟨⟨0, 0, 0, 0⟩⟩

/-- The per-process privilege block.  The three `s_flags` policy bits are
split into booleans; `s_notify_pending` and `s_send_mask` are `sys_map_t`
bitmaps, kept chunk by chunk because `mini_receive` scans them chunk by
chunk.  `s_stack_guard_ok` models the result of the dereference
`*s_stack_guard == STACK_GUARD`. -/
structure Priv where
  s_flags_preemptible : Bool
  s_flags_billable : Bool
  s_flags_rdy_q_head : Bool
  s_call_mask : Nat
  s_send_mask : List (List Bool)
  s_id : Nat
  s_notify_pending : List (List Bool)
  s_int_pending : Int
  s_sig_pending : Int
  s_stack_guard_ok : Bool
deriving DecidableEq, Repr

instance : Inhabited Priv :=
  ⟨⟨false, false, false, 0, [], 0, [], 0, 0, true⟩⟩

/-- A process-table slot.  The intrusive `p_q_link` and `p_nextready`
chains are represented by membership in the owner's `p_caller_q` list and
in the global ready queues; `p_ntf_q` holds indices into the global
`notify_buffer`. -/
structure Proc where
  p_rts_flags : Rts
  p_getfrom : Int
  p_sendto : Int
  p_messbuf : Nat
  p_caller_q : List Int
  p_ntf_q : List Nat
  p_priority : Nat
  p_max_priority : Nat
  p_full_quantums : Int
  p_sched_ticks : Int
  p_quantum_size : Int
  p_priv : Priv
  p_memmap_d_vir : Nat
  p_memmap_s_vir : Nat
  p_memmap_s_len : Nat
deriving DecidableEq, Repr

instance : Inhabited Proc :=
  ⟨⟨default, 0, 0, 0, [], [], 0, 0, 0, 0, 0, default, 0, 0, 0⟩⟩

/-- The kernel state touched by `proc.c`: the process table, message
memory, the ready queues (`rdy_head`/`rdy_tail`/`p_nextready` as plain
lists, head first), the three scheduling singletons, and the notification
buffer pool with its allocation bitmap. -/
structure KState where
  procs : List Proc
  mem : Nat → Message
  rdy : List (List Int)
  proc_ptr : Int
  next_ptr : Int
  bill_ptr : Int
  notify_buffer : List Notification
  notify_bitmap : List Bool

/-- Environment data defined outside `proc.c`: the `QUANTUMS` budget per
priority, the privilege-id maps `id_to_nr` and `nr_to_id`, and the clock
reading `get_uptime` returns. -/
structure KEnv where
  quantums : Nat → Int
  id2nr : Nat → Int
  nr2id : Int → Nat
  uptime : Int

/-- Slot index of process number `n` (`proc_addr` offsets by `NR_TASKS`). -/
def slotIdx (n : Int) : Nat := (n + NR_TASKS).toNat

/-- `proc_addr(n)`: the slot of process number `n`. -/
def procAddr (s : KState) (n : Int) : Proc := s.procs.getD (slotIdx n) default

/-- Update the slot of process number `n` in place. -/
def updateProc (s : KState) (n : Int) (f : Proc → Proc) : KState :=
  { s with procs := s.procs.set (slotIdx n) (f (procAddr s n)) }

/-- Write a message value at an address. -/
def memWrite (mem : Nat → Message) (a : Nat) (v : Message) : Nat → Message :=
  fun x => if x = a then v else mem x

/-- `iskerneln`: kernel tasks have negative process numbers. -/
def iskerneln (n : Int) : Prop := n < 0

instance (n : Int) : Decidable (iskerneln n) := by
  unfold iskerneln; infer_instance

/-- `isokprocn`: a valid process number. -/
def isokprocn (n : Int) : Prop := -NR_TASKS ≤ n ∧ n < NR_PROCS

instance (n : Int) : Decidable (isokprocn n) := by
  unfold isokprocn; infer_instance

/-- `get_sys_bit` on a chunked `sys_map_t`. -/
def getSysBit (map : List (List Bool)) (id : Nat) : Bool :=
  (map.getD (id / BITCHUNK_BITS) []).getD (id % BITCHUNK_BITS) false

/-- `set_sys_bit` on a chunked `sys_map_t`. -/
def setSysBit (map : List (List Bool)) (id : Nat) : List (List Bool) :=
  map.set (id / BITCHUNK_BITS)
    ((map.getD (id / BITCHUNK_BITS) []).set (id % BITCHUNK_BITS) true)

/-- Clear bit `i` of chunk `k` (the `*chunk &= ~(1 << i)` step of
`mini_receive`). -/
def clearMapBit (map : List (List Bool)) (k i : Nat) : List (List Bool) :=
  map.set k ((map.getD k []).set i false)

/-- Head of the first non-empty ready queue, scanning from the highest
priority (queue 0) downward, as `pick_proc`'s loop does. -/
def pickFrom : List (List Int) → Option Int
  | [] => none
  | [] :: rest => pickFrom rest
  | (h :: _) :: _ => some h

/-- `pick_proc()`: elect `next_ptr` from the first non-empty queue; if the
elected slot is `BILLABLE`, also update `bill_ptr`.  If every queue is
empty the loop falls through without writing anything. -/
def pickProc (s : KState) : KState :=
  match pickFrom s.rdy with
  | none => s
  | some n =>
      { s with next_ptr := n,
               bill_ptr := if (procAddr s n).p_priv.s_flags_billable then n
                           else s.bill_ptr }

/-- The queue policy of `ready`: a singleton when the queue is empty, at
the head for `RDY_Q_HEAD` processes, else at the tail. -/
def enqueuePolicy (queue : List Int) (n : Int) (atHead : Bool) : List Int :=
  if queue = [] then [n]
  else if atHead then n :: queue
  else queue ++ [n]

/-- `ready(rp)`: enqueue on the queue of `rp`'s priority per
`enqueuePolicy`, then `pick_proc`. -/
def readyK (s : KState) (n : Int) : KState :=
  let rp := procAddr s n
  let q := rp.p_priority
  let queue := s.rdy.getD q []
  pickProc { s with
    rdy := s.rdy.set q (enqueuePolicy queue n rp.p_priv.s_flags_rdy_q_head) }

/-- `unready(rp)`: panic (`none`) if a kernel task's stack guard word is
corrupt; otherwise unlink the first occurrence of `rp` from its priority's
queue, re-elect via `pick_proc` when the removed process was `proc_ptr` or
`next_ptr`, and finally reset `p_priority` to `p_max_priority` and
`p_full_quantums` to that level's `QUANTUMS` budget. -/
def unreadyK (env : KEnv) (s : KState) (n : Int) : Option KState :=
  let rp := procAddr s n
  if iskerneln n ∧ ¬ rp.p_priv.s_stack_guard_ok then none
  else
    let q := rp.p_priority
    let queue := s.rdy.getD q []
    let s1 := { s with rdy := s.rdy.set q (queue.erase n) }
    let s2 := if n ∈ queue ∧ (n = s.proc_ptr ∨ n = s.next_ptr) then pickProc s1
              else s1
    some (updateProc s2 n (fun p =>
      { p with p_priority := p.p_max_priority,
               p_full_quantums := env.quantums p.p_max_priority }))

/-- Move the queue head to the tail, as `sched`'s rotation does; on a
singleton queue the pointer juggling leaves the queue unchanged, and the
source only runs it on a non-empty queue. -/
def rotateQ : List Int → List Int
  | [] => []
  | x :: xs => xs ++ [x]

/-- Slot update `-- sp->p_full_quantums` of `sched`. -/
def schedDecFq : Proc → Proc := fun p =>
  { p with p_full_quantums := p.p_full_quantums - 1 }

/-- Slot update `sched_ptr->p_priority = q` of `sched`'s demotion. -/
def schedSetPrio (q : Nat) : Proc → Proc := fun p => { p with p_priority := q }

/-- Slot update `p_full_quantums = QUANTUMS(p_priority)` of `sched`. -/
def schedRefillFq (env : KEnv) : Proc → Proc := fun p =>
  { p with p_full_quantums := env.quantums p.p_priority }

/-- Slot update `p_sched_ticks = p_quantum_size` of `sched`. -/
def schedSetTicks : Proc → Proc := fun p =>
  { p with p_sched_ticks := p.p_quantum_size }

/-- The tail of `sched`: rotate the queue of the process's priority when
the process is at its head, refill `p_sched_ticks` from `p_quantum_size`,
and `pick_proc`. -/
def schedRotateRefill (_env : KEnv) (s2 : KState) (n : Int) : KState :=
  let q := (procAddr s2 n).p_priority
  let queue := s2.rdy.getD q []
  let s3 := if queue.head? = some n then
              { s2 with rdy := s2.rdy.set q (rotateQ queue) }
            else s2
  pickProc (updateProc s3 n schedSetTicks)

/-- The demotion step of `sched`: unready at the old level, adjust the
priority to `q`, ready at the new level; `none` propagates a stack-guard
panic out of `unready`. -/
def schedDemote (env : KEnv) (s0 : KState) (n : Int) (q : Nat) :
    Option KState :=
  match unreadyK env s0 n with
  | none => none
  | some s1 => some (readyK (updateProc s1 n (schedSetPrio q)) n)

/-- `sched(sp)`: return at once for a non-`PREEMPTIBLE` process; decrement
`p_full_quantums`; when it drops to 0 or below, demote to `p_priority + 1`
if that stays above `IDLE_Q` and reset `p_full_quantums` to the current
level's budget; rotate the queue when `sp` is at its head; refill
`p_sched_ticks` from `p_quantum_size`; `pick_proc`. -/
def schedK (env : KEnv) (s : KState) (n : Int) : Option KState :=
  if ¬ (procAddr s n).p_priv.s_flags_preemptible then some s
  else
    let fq := (procAddr s n).p_full_quantums - 1
    let s0 := updateProc s n schedDecFq
    let step1 : Option KState :=
      if fq ≤ 0 then
        if (procAddr s0 n).p_priority + 1 < IDLE_Q then
          schedDemote env s0 n ((procAddr s0 n).p_priority + 1)
        else some s0
      else some s0
    match step1 with
    | none => none
    | some s1 =>
        let s2 := if fq ≤ 0 then updateProc s1 n (schedRefillFq env) else s1
        some (schedRotateRefill env s2 n)

/-- The deadlock-detection loop of `mini_send`: starting at `dst`, follow
`p_sendto` while the current slot has `SENDING` set; report `true` when
the walk reaches `caller` (the `ELOCKED` case) and `false` when it reaches
a non-`SENDING` slot.  The C loop has no bound, so fuel makes divergence
on a (invariant-violating) cyclic chain explicit as `none`. -/
def deadlockWalk (s : KState) (caller : Int) : Nat → Int → Option Bool
  | 0, _ => none
  | fuel + 1, xp =>
      if (procAddr s xp).p_rts_flags.sending then
        let nxt := (procAddr s xp).p_sendto
        if nxt = caller then some true
        else deadlockWalk s caller fuel nxt
      else some false

/-- The slots whose `SENDING` flag the deadlock walk inspects: the chain
`dst → dst.p_sendto → ...` truncated at the first non-`SENDING` slot, or
after `fuel` steps. -/
def chainNodes (s : KState) : Nat → Int → List Int
  | 0, _ => []
  | fuel + 1, xp =>
      if (procAddr s xp).p_rts_flags.sending then
        xp :: chainNodes s fuel (procAddr s xp).p_sendto
      else []

/-- `mini_send(caller_ptr, dst, m_ptr, flags)`.  Deadlock check first;
then the rendezvous fast path when `dst` is blocked in a matching receive
(copy into `dst`'s `p_messbuf`, clear `RECEIVING`, `ready(dst)` if it
became runnable); otherwise block the caller unless `NON_BLOCKING`: store
`m_ptr`, `unready` if the caller was runnable, set `SENDING` and
`p_sendto`, and append the caller at the tail of `dst`'s `p_caller_q`. -/
def miniSend (env : KEnv) (s : KState) (caller dst : Int) (m_ptr : Nat)
    (flags : Nat) : Option (Int × KState) :=
  match deadlockWalk s caller s.procs.length dst with
  | none => none
  | some true => some (ELOCKED, s)
  | some false =>
      let dstP := procAddr s dst
      if dstP.p_rts_flags.receiving ∧ ¬ dstP.p_rts_flags.sending ∧
         (dstP.p_getfrom = ANY ∨ dstP.p_getfrom = caller) then
        let s1 := { s with mem := memWrite s.mem dstP.p_messbuf (s.mem m_ptr) }
        let s2 := updateProc s1 dst (fun p =>
          { p with p_rts_flags := { p.p_rts_flags with receiving := false } })
        some (OK, if (procAddr s2 dst).p_rts_flags.isZero then readyK s2 dst
                  else s2)
      else if flags &&& NON_BLOCKING = 0 then
        let s1 := updateProc s caller (fun p => { p with p_messbuf := m_ptr })
        match (if (procAddr s1 caller).p_rts_flags.isZero then
                 unreadyK env s1 caller
               else some s1) with
        | none => none
        | some s2 =>
            let s3 := updateProc s2 caller (fun p =>
              { p with p_rts_flags := { p.p_rts_flags with sending := true },
                       p_sendto := dst })
            let s4 := updateProc s3 dst (fun p =>
              { p with p_caller_q := p.p_caller_q ++ [caller] })
            some (OK, s4)
      else some (ENOTREADY, s)

/-- `BuildMess(&m, src, dst_ptr)`: fill a kernel-local message with the
source, `NOTIFY_FROM(src)` and the uptime stamp, and for the `HARDWARE`
and `SYSTEM` pseudo-sources capture-and-clear the destination's pending
interrupt or signal map into `NOTIFY_ARG`.  The C local `m` is
uninitialized, so the fields `BuildMess` does not write keep the default
value here. -/
def buildMess (env : KEnv) (s : KState) (src dstN : Int) : Message × KState :=
  let base : Message :=
    { m_source := src, m_type := NOTIFY_FROM src,
      notify_timestamp := env.uptime,
      notify_arg := (default : Message).notify_arg,
      notify_flags := (default : Message).notify_flags,
      body := (default : Message).body }
  if src = HARDWARE then
    ({ base with notify_arg := (procAddr s dstN).p_priv.s_int_pending },
     updateProc s dstN (fun p =>
       { p with p_priv := { p.p_priv with s_int_pending := 0 } }))
  else if src = SYSTEM then
    ({ base with notify_arg := (procAddr s dstN).p_priv.s_sig_pending },
     updateProc s dstN (fun p =>
       { p with p_priv := { p.p_priv with s_sig_pending := 0 } }))
  else (base, s)

/-- `mini_alert(caller_ptr, dst)`: when `dst` is blocked in a matching
receive, synthesize a notification via `BuildMess`, copy it into `dst`'s
`p_messbuf`, clear `RECEIVING` and `ready(dst)` if it became runnable;
otherwise set bit `priv(caller)->s_id` of `dst`'s pending bitmap.  Both
branches return `OK` and nothing can block or panic. -/
def miniAlert (env : KEnv) (s : KState) (caller dst : Int) : Int × KState :=
  let dstP := procAddr s dst
  if dstP.p_rts_flags.receiving ∧ ¬ dstP.p_rts_flags.sending ∧
     (dstP.p_getfrom = ANY ∨ dstP.p_getfrom = caller) then
    let ms := buildMess env s caller dst
    let s2 := { ms.2 with mem := memWrite ms.2.mem dstP.p_messbuf ms.1 }
    let s3 := updateProc s2 dst (fun p =>
      { p with p_rts_flags := { p.p_rts_flags with receiving := false } })
    (OK, if (procAddr s3 dst).p_rts_flags.isZero then readyK s3 dst else s3)
  else
    let src_id := (procAddr s caller).p_priv.s_id
    (OK, updateProc s dst (fun p =>
      { p with p_priv :=
          { p.p_priv with
            s_notify_pending := setSysBit p.p_priv.s_notify_pending src_id } }))

/-- First index on a `p_ntf_q` whose `notify_buffer` record matches the
source and type, as `mini_notify`'s replacement scan finds it. -/
def findNtfMatch (buf : List Notification) (src t : Int) :
    List Nat → Option Nat
  | [] => none
  | i :: rest =>
      let r := buf.getD i default
      if r.n_type = t ∧ r.n_source = src then some i
      else findNtfMatch buf src t rest

/-- `alloc_bit(notify_bitmap, NR_NOTIFY_BUFS)`: index of the first free
record, or `none` when the pool is exhausted (the C call returns -1). -/
def allocBit (bm : List Bool) : Option Nat := bm.findIdx? (fun b => !b)

/-- `mini_notify(caller_ptr, dst, m_ptr)`.  Immediate delivery when `dst`
is blocked in a matching receive (with the `HARDWARE`-caller interrupt-map
override written through `m_ptr` first); otherwise enqueue on `dst`'s
`p_ntf_q` with replace-if-exists semantics: overwrite `n_flags`/`n_arg` of
an existing `(source, type)` record in place, else allocate a fresh record
(`ENOSPC` when the pool is exhausted) and append its index at the tail.
For a non-kernel caller the pending path first copies the message into the
kernel-local `ntf_mess`, which in this memory model is just reading
`mem m_ptr`. -/
def miniNotify (_env : KEnv) (s : KState) (caller dst : Int) (m_ptr : Nat) :
    Int × KState :=
  let dstP := procAddr s dst
  if dstP.p_rts_flags.receiving ∧ ¬ dstP.p_rts_flags.sending ∧
     (dstP.p_getfrom = ANY ∨ dstP.p_getfrom = caller) then
    let s0 :=
      if caller = HARDWARE then
        { (updateProc s dst (fun p =>
            { p with p_priv := { p.p_priv with s_int_pending := 0 } })) with
          mem := memWrite s.mem m_ptr
            { s.mem m_ptr with notify_arg := dstP.p_priv.s_int_pending } }
      else s
    let s1 := { s0 with mem := memWrite s0.mem dstP.p_messbuf (s0.mem m_ptr) }
    let s2 := updateProc s1 dst (fun p =>
      { p with p_rts_flags := { p.p_rts_flags with receiving := false } })
    (OK, if (procAddr s2 dst).p_rts_flags.isZero then readyK s2 dst else s2)
  else
    let msg := s.mem m_ptr
    match findNtfMatch s.notify_buffer caller msg.m_type dstP.p_ntf_q with
    | some i =>
        let r := s.notify_buffer.getD i default
        let r2 := { r with n_flags := msg.notify_flags, n_arg := msg.notify_arg }
        (OK, { s with notify_buffer := s.notify_buffer.set i r2 })
    | none =>
        match allocBit s.notify_bitmap with
        | none => (ENOSPC, s)
        | some i =>
            let s1 := { s with
              notify_bitmap := s.notify_bitmap.set i true,
              notify_buffer := s.notify_buffer.set i
                { n_source := caller, n_type := msg.m_type,
                  n_flags := msg.notify_flags, n_arg := msg.notify_arg } }
            (OK, updateProc s1 dst (fun p =>
              { p with p_ntf_q := p.p_ntf_q ++ [i] }))

/-- The chunk-by-chunk scan of `mini_receive`'s notification pickup, with
`k` the index of the first chunk of the remaining list.  Per chunk: skip
it when it has no set bit; otherwise look up its lowest set bit, `break`
(`none`) when the resulting source id is out of range, `continue` to the
next chunk when the id's process does not match the requested source, and
otherwise report (chunk, bit, source process).  Note that a non-matching
lowest bit skips the rest of its chunk. -/
def findPending (env : KEnv) (src : Int) :
    List (List Bool) → Nat → Option (Nat × Nat × Int)
  | [], _ => none
  | c :: rest, k =>
      if c.any (fun b => b) then
        let i := c.findIdx (fun b => b)
        let src_id := k * BITCHUNK_BITS + i
        if NR_SYS_PROCS ≤ src_id then none
        else
          let sp := env.id2nr src_id
          if src ≠ ANY ∧ src ≠ sp then findPending env src rest (k + 1)
          else some (k, i, sp)
      else findPending env src rest (k + 1)

/-- The pending-bitmap delivery step of `mini_receive`: when the scan
finds a bit, clear it, `BuildMess` the notification (which may
capture-and-clear the caller's own pending interrupt or signal map), and
copy it to `m_ptr` with `HARDWARE` as the pseudo-source slot for the
opaque copy. -/
def recvPending (env : KEnv) (s : KState) (caller src : Int) (m_ptr : Nat) :
    Option (Int × KState) :=
  match findPending env src (procAddr s caller).p_priv.s_notify_pending 0 with
  | none => none
  | some (k, i, sp) =>
      let s1 := updateProc s caller (fun p =>
        { p with p_priv :=
            { p.p_priv with
              s_notify_pending := clearMapBit p.p_priv.s_notify_pending k i } })
      let ms := buildMess env s1 sp caller
      some (OK, { ms.2 with mem := memWrite ms.2.mem m_ptr ms.1 })

/-- First acceptable record on a `p_ntf_q` for the `TEMP_CODE` legacy scan
of `mini_receive`, together with the queue with that link removed. -/
def findOldNtf (buf : List Notification) (src : Int) :
    List Nat → Option (Nat × List Nat)
  | [] => none
  | i :: rest =>
      if src = ANY ∨ src = (buf.getD i default).n_source then some (i, rest)
      else
        match findOldNtf buf src rest with
        | none => none
        | some (j, rest2) => some (j, i :: rest2)

/-- The `TEMP_CODE` legacy `p_ntf_q` delivery step of `mini_receive`:
assemble the message from the stored record (`BuildOldMess`), apply the
`HARDWARE` interrupt-map override, copy it to `m_ptr`, unlink the record
from the queue and free its buffer slot. -/
def recvNtfQ (s : KState) (caller src : Int) (m_ptr : Nat) :
    Option (Int × KState) :=
  match findOldNtf s.notify_buffer src (procAddr s caller).p_ntf_q with
  | none => none
  | some (i, rest) =>
      let r := s.notify_buffer.getD i default
      let m0 : Message :=
        { (default : Message) with
          m_source := r.n_source, m_type := r.n_type,
          notify_flags := r.n_flags, notify_arg := r.n_arg }
      let withHw :=
        if m0.m_source = HARDWARE then
          (({ m0 with
              notify_arg := (procAddr s caller).p_priv.s_int_pending }),
           updateProc s caller (fun p =>
             { p with p_priv := { p.p_priv with s_int_pending := 0 } }))
        else (m0, s)
      let s1 := { withHw.2 with mem := memWrite withHw.2.mem m_ptr withHw.1 }
      let s2 := updateProc s1 caller (fun p => { p with p_ntf_q := rest })
      some (OK, { s2 with notify_bitmap := s2.notify_bitmap.set i false })

/-- First acceptable sender on a `p_caller_q`, with the remaining queue,
as `mini_receive`'s pointer-pointer scan unlinks it. -/
def findCaller (src : Int) : List Int → Option (Int × List Int)
  | [] => none
  | x :: rest =>
      if src = ANY ∨ src = x then some (x, rest)
      else
        match findCaller src rest with
        | none => none
        | some (y, rest2) => some (y, x :: rest2)

/-- The queued-sender delivery step of `mini_receive`: copy the sender's
stored message to `m_ptr`, clear the sender's `SENDING` flag, `ready` it
when it became runnable, and unlink it from the caller's queue. -/
def recvCallerQ (s : KState) (caller src : Int) (m_ptr : Nat) :
    Option (Int × KState) :=
  match findCaller src (procAddr s caller).p_caller_q with
  | none => none
  | some (x, rest) =>
      let s1 := { s with
        mem := memWrite s.mem m_ptr (s.mem (procAddr s x).p_messbuf) }
      let s2 := updateProc s1 x (fun p =>
        { p with p_rts_flags := { p.p_rts_flags with sending := false } })
      let s3 := if (procAddr s2 x).p_rts_flags.isZero then readyK s2 x else s2
      some (OK, updateProc s3 caller (fun p => { p with p_caller_q := rest }))

/-- `mini_receive(caller_ptr, src, m_ptr, flags)`.  All message
acquisition is skipped when the caller's `SENDING` flag is set (a blocked
SENDREC send half); the pending-bitmap scan and the legacy `p_ntf_q` scan
run only without `FRESH_ANSWER`; then the `p_caller_q` scan; and when
nothing was delivered, block (set `p_getfrom`/`p_messbuf`, `unready` a
runnable caller, set `RECEIVING`) unless `NON_BLOCKING` demands
`ENOTREADY`. -/
def miniReceive (env : KEnv) (s : KState) (caller src : Int) (m_ptr : Nat)
    (flags : Nat) : Option (Int × KState) :=
  let attempt : Option (Int × KState) :=
    if ¬ (procAddr s caller).p_rts_flags.sending then
      match (if flags &&& FRESH_ANSWER = 0 then
               match recvPending env s caller src m_ptr with
               | some out => some out
               | none => recvNtfQ s caller src m_ptr
             else none) with
      | some out => some out
      | none => recvCallerQ s caller src m_ptr
    else none
  match attempt with
  | some out => some out
  | none =>
      if flags &&& NON_BLOCKING = 0 then
        let s1 := updateProc s caller (fun p =>
          { p with p_getfrom := src, p_messbuf := m_ptr })
        match (if (procAddr s1 caller).p_rts_flags.isZero then
                 unreadyK env s1 caller
               else some s1) with
        | none => none
        | some s2 =>
            some (OK, updateProc s2 caller (fun p =>
              { p with p_rts_flags :=
                  { p.p_rts_flags with receiving := true } }))
      else some (ENOTREADY, s)

/-- The privilege check of `sys_call`: the function must be in the
caller's `s_call_mask`, and calls to kernel tasks may only be SENDREC. -/
def privFail (cp : Proc) (function : Nat) (src_dst : Int) : Prop :=
  ¬ cp.p_priv.s_call_mask.testBit function ∨
  (iskerneln src_dst ∧ function ≠ SENDREC)

instance (cp : Proc) (function : Nat) (src_dst : Int) :
    Decidable (privFail cp function src_dst) := by
  unfold privFail; infer_instance

/-- The endpoint check of `sys_call`: `src_dst` must be a valid process
number or `ANY`, unless echoing. -/
def endpointFail (function : Nat) (src_dst : Int) : Prop :=
  ¬ (isokprocn src_dst ∨ src_dst = ANY ∨ function = ECHO)

instance (function : Nat) (src_dst : Int) :
    Decidable (endpointFail function src_dst) := by
  unfold endpointFail; infer_instance

/-- The message-buffer check of `sys_call`, applied only to functions with
the SENDREC bits (those that carry a message): the message must lie in
clicks within the caller's data/stack/gap region. -/
def bufferFail (cp : Proc) (function : Nat) (m_ptr : Nat) : Prop :=
  function &&& SENDREC ≠ 0 ∧
  (m_ptr >>> CLICK_SHIFT < cp.p_memmap_d_vir ∨
   (m_ptr + MESS_SIZE - 1) >>> CLICK_SHIFT < m_ptr >>> CLICK_SHIFT ∨
   cp.p_memmap_s_vir + cp.p_memmap_s_len ≤
     (m_ptr + MESS_SIZE - 1) >>> CLICK_SHIFT)

instance (cp : Proc) (function : Nat) (m_ptr : Nat) :
    Decidable (bufferFail cp function m_ptr) := by
  unfold bufferFail; infer_instance

/-- The send-mask check of `sys_call`, applied only to functions with the
SEND bit: the destination's id must be set in the caller's `s_send_mask`. -/
def sendMaskFail (env : KEnv) (cp : Proc) (function : Nat)
    (src_dst : Int) : Prop :=
  function &&& SEND ≠ 0 ∧
  ¬ getSysBit cp.p_priv.s_send_mask (env.nr2id src_dst)

instance (env : KEnv) (cp : Proc) (function : Nat) (src_dst : Int) :
    Decidable (sendMaskFail env cp function src_dst) := by
  unfold sendMaskFail; infer_instance

/-- The liveness check of `sys_call`, applied only to functions with the
SEND bit: the destination slot must not be empty. -/
def deadDstFail (s : KState) (function : Nat) (src_dst : Int) : Prop :=
  function &&& SEND ≠ 0 ∧ (procAddr s src_dst).p_rts_flags.isSlotFree

instance (s : KState) (function : Nat) (src_dst : Int) :
    Decidable (deadDstFail s function src_dst) := by
  unfold deadDstFail; infer_instance

/-- `sys_call(call_nr, src_dst, m_ptr)`: split the call number into
function and flags, run the four validation checks in order (privilege,
endpoint, message-buffer range in clicks, send mask and destination
liveness), then dispatch on the function, with SENDREC falling through to
the receive half when its send half returned `OK`, and `EBADCALL` for an
unknown function. -/
def sysCall (env : KEnv) (s : KState) (call_nr : Nat) (src_dst : Int)
    (m_ptr : Nat) : Option (Int × KState) :=
  let caller := s.proc_ptr
  let cp := procAddr s caller
  let function := call_nr &&& SYSCALL_FUNC
  let flags := call_nr &&& SYSCALL_FLAGS
  if privFail cp function src_dst then
    some (ECALLDENIED, s)
  else if endpointFail function src_dst then
    some (EBADSRCDST, s)
  else if bufferFail cp function m_ptr then
    some (EFAULT, s)
  else if sendMaskFail env cp function src_dst then
    some (ECALLDENIED, s)
  else if deadDstFail s function src_dst then
    some (EDEADDST, s)
  else if function = SENDREC ∨ function = SEND then
    match miniSend env s caller src_dst m_ptr flags with
    | none => none
    | some r =>
        if function = SEND ∨ r.1 ≠ OK then some r
        else miniReceive env r.2 caller src_dst m_ptr flags
  else if function = RECEIVE then
    miniReceive env s caller src_dst m_ptr flags
  else if function = ALERT then
    some (miniAlert env s caller src_dst)
  else if function = NOTIFY then
    some (miniNotify env s caller src_dst m_ptr)
  else if function = ECHO then
    some (OK, { s with mem := memWrite s.mem m_ptr (s.mem m_ptr) })
  else
    some (EBADCALL, s)

/-- `lock_send(dst, m_ptr)`: the locked gateway for tasks; the lock has no
observable effect on this single-threaded state, and the wrapped call is
always `mini_send(proc_ptr, dst, m_ptr, NON_BLOCKING)`. -/
def lockSend (env : KEnv) (s : KState) (dst : Int) (m_ptr : Nat) :
    Option (Int × KState) :=
  miniSend env s s.proc_ptr dst m_ptr NON_BLOCKING

/-- `lock_alert(src, dst)`: the locked gateway to `mini_alert`. -/
def lockAlert (env : KEnv) (s : KState) (src dst : Int) : Int × KState :=
  miniAlert env s src dst

/-- `lock_sched(sched_ptr)`: the locked gateway to `sched`. -/
def lockSched (env : KEnv) (s : KState) (n : Int) : Option KState :=
  schedK env s n

/-! ### Basic lemmas about the state helpers -/

theorem List.getD_set_self {α : Type _} {l : List α} {i : Nat} {a d : α}
    (h : i < l.length) : (l.set i a).getD i d = a := by
  rw [List.getD_eq_getElem?_getD, List.getElem?_set_self h]; rfl

theorem List.getD_set_ne {α : Type _} {l : List α} {i j : Nat} {a d : α}
    (h : i ≠ j) : (l.set i a).getD j d = l.getD j d := by
  rw [List.getD_eq_getElem?_getD, List.getElem?_set_ne h,
    ← List.getD_eq_getElem?_getD]

theorem List.set_getD_self {α : Type _} {l : List α} {i : Nat} {d : α}
    (h : i < l.length) : l.set i (l.getD i d) = l := by
  induction l generalizing i with
  | nil => simp at h
  | cons x xs ih =>
      cases i with
      | zero => simp [List.getD]
      | succ j =>
          simp only [List.length_cons, Nat.succ_lt_succ_iff] at h
          rw [List.getD_cons_succ, List.set_cons_succ, ih h]

@[simp] theorem updateProc_procs_length (s : KState) (n : Int) (f : Proc → Proc) :
    (updateProc s n f).procs.length = s.procs.length := by
  simp [updateProc]

@[simp] theorem updateProc_mem (s : KState) (n : Int) (f : Proc → Proc) :
    (updateProc s n f).mem = s.mem := rfl

@[simp] theorem updateProc_rdy (s : KState) (n : Int) (f : Proc → Proc) :
    (updateProc s n f).rdy = s.rdy := rfl

@[simp] theorem updateProc_proc_ptr (s : KState) (n : Int) (f : Proc → Proc) :
    (updateProc s n f).proc_ptr = s.proc_ptr := rfl

@[simp] theorem updateProc_next_ptr (s : KState) (n : Int) (f : Proc → Proc) :
    (updateProc s n f).next_ptr = s.next_ptr := rfl

@[simp] theorem updateProc_bill_ptr (s : KState) (n : Int) (f : Proc → Proc) :
    (updateProc s n f).bill_ptr = s.bill_ptr := rfl

@[simp] theorem updateProc_notify_buffer (s : KState) (n : Int) (f : Proc → Proc) :
    (updateProc s n f).notify_buffer = s.notify_buffer := rfl

@[simp] theorem updateProc_notify_bitmap (s : KState) (n : Int) (f : Proc → Proc) :
    (updateProc s n f).notify_bitmap = s.notify_bitmap := rfl

theorem procAddr_updateProc_self (s : KState) (n : Int) (f : Proc → Proc)
    (h : slotIdx n < s.procs.length) :
    procAddr (updateProc s n f) n = f (procAddr s n) := by
  show (s.procs.set (slotIdx n) (f (procAddr s n))).getD (slotIdx n) default =
    f (procAddr s n)
  exact List.getD_set_self h

theorem procAddr_updateProc_ne (s : KState) (n m : Int) (f : Proc → Proc)
    (h : slotIdx n ≠ slotIdx m) :
    procAddr (updateProc s n f) m = procAddr s m := by
  show (s.procs.set (slotIdx n) (f (procAddr s n))).getD (slotIdx m) default =
    s.procs.getD (slotIdx m) default
  exact List.getD_set_ne h

theorem procAddr_setMem (t : KState) (mm : Nat → Message) (n : Int) :
    procAddr { t with mem := mm } n = procAddr t n := rfl

theorem mem_setMem (t : KState) (mm : Nat → Message) :
    ({ t with mem := mm } : KState).mem = mm := rfl

theorem rdy_setMem (t : KState) (mm : Nat → Message) :
    ({ t with mem := mm } : KState).rdy = t.rdy := rfl

theorem proc_ptr_setMem (t : KState) (mm : Nat → Message) :
    ({ t with mem := mm } : KState).proc_ptr = t.proc_ptr := rfl

theorem memWrite_read_self (mem : Nat → Message) (a : Nat) (v : Message) :
    memWrite mem a v a = v := by
  unfold memWrite
  simp

theorem procAddr_updateProc (s : KState) (n : Int) (f : Proc → Proc) (m : Int) :
    procAddr (updateProc s n f) m =
      if slotIdx n = slotIdx m ∧ slotIdx n < s.procs.length then
        f (procAddr s n)
      else procAddr s m := by
  by_cases h : slotIdx n = slotIdx m
  · by_cases hlt : slotIdx n < s.procs.length
    · rw [if_pos ⟨h, hlt⟩]
      show (s.procs.set (slotIdx n) (f (procAddr s n))).getD (slotIdx m) default =
        f (procAddr s n)
      rw [← h]
      exact List.getD_set_self hlt
    · rw [if_neg (fun hc => hlt hc.2)]
      show (s.procs.set (slotIdx n) (f (procAddr s n))).getD (slotIdx m) default =
        s.procs.getD (slotIdx m) default
      rw [List.set_eq_of_length_le (Nat.le_of_not_lt hlt)]
  · rw [if_neg (fun hc => h hc.1)]
    exact procAddr_updateProc_ne s n m f h

theorem procAddr_updateProc_field {α : Type _} (s : KState) (n : Int)
    (f : Proc → Proc) (m : Int) (g : Proc → α) (hf : ∀ p, g (f p) = g p) :
    g (procAddr (updateProc s n f) m) = g (procAddr s m) := by
  rw [procAddr_updateProc]
  split
  · next h =>
      have h2 : procAddr s n = procAddr s m := by
        unfold procAddr
        rw [h.1]
      rw [hf, h2]
  · rfl

theorem slotIdx_inj {a b : Int} (ha : -NR_TASKS ≤ a) (hb : -NR_TASKS ≤ b)
    (h : slotIdx a = slotIdx b) : a = b := by
  unfold slotIdx at h
  omega

theorem slotIdx_ne {a b : Int} (ha : -NR_TASKS ≤ a) (hb : -NR_TASKS ≤ b)
    (h : a ≠ b) : slotIdx a ≠ slotIdx b :=
  fun hc => h (slotIdx_inj ha hb hc)

@[simp] theorem pickProc_procs (s : KState) : (pickProc s).procs = s.procs := by
  unfold pickProc; cases pickFrom s.rdy <;> rfl

@[simp] theorem pickProc_rdy (s : KState) : (pickProc s).rdy = s.rdy := by
  unfold pickProc; cases pickFrom s.rdy <;> rfl

@[simp] theorem pickProc_mem (s : KState) : (pickProc s).mem = s.mem := by
  unfold pickProc; cases pickFrom s.rdy <;> rfl

@[simp] theorem pickProc_proc_ptr (s : KState) :
    (pickProc s).proc_ptr = s.proc_ptr := by
  unfold pickProc; cases pickFrom s.rdy <;> rfl

@[simp] theorem pickProc_notify_buffer (s : KState) :
    (pickProc s).notify_buffer = s.notify_buffer := by
  unfold pickProc; cases pickFrom s.rdy <;> rfl

@[simp] theorem pickProc_notify_bitmap (s : KState) :
    (pickProc s).notify_bitmap = s.notify_bitmap := by
  unfold pickProc; cases pickFrom s.rdy <;> rfl

@[simp] theorem procAddr_pickProc (s : KState) (n : Int) :
    procAddr (pickProc s) n = procAddr s n := by
  simp [procAddr]

theorem pickFrom_eq_none_of_all_empty {l : List (List Int)}
    (h : ∀ q ∈ l, q = []) : pickFrom l = none := by
  induction l with
  | nil => rfl
  | cons c rest ih =>
      have hc : c = [] := h c (List.mem_cons_self c rest)
      subst hc
      exact ih (fun q hq => h q (List.mem_cons_of_mem _ hq))

theorem mem_enqueuePolicy {queue : List Int} {n a : Int} {hd : Bool} :
    a ∈ enqueuePolicy queue n hd ↔ a ∈ queue ∨ a = n := by
  unfold enqueuePolicy
  split
  · subst queue; simp
  · split <;> simp [or_comm]

/-! ### Concrete fixtures used by witness and counterexample theorems -/

/-- A concrete environment instance. -/
def env0 : KEnv :=
  { quantums := fun _ => 8, id2nr := fun i => (i : Int),
    nr2id := fun n => n.toNat, uptime := 77 }

/-- All-default message memory. -/
def mem0 : Nat → Message := fun _ => default

/-- Build a small concrete state around a process table and ready queues. -/
def mkState (ps : List Proc) (rq : List (List Int)) : KState :=
  { procs := ps, mem := mem0, rdy := rq, proc_ptr := 0, next_ptr := 0,
    bill_ptr := 0, notify_buffer := [], notify_bitmap := [] }

/-! ### Claims about `pick_proc` (C10) -/

/-- Claim C10: `pick_proc` modifies nothing but `next_ptr` and `bill_ptr`;
with every ready queue empty it returns with both unchanged (it never
writes a nil `next_ptr`); and when the elected queue head is not
`BILLABLE`, `bill_ptr` is left unchanged. -/
theorem pick_proc_frame (s : KState) :
    ((pickProc s).procs = s.procs ∧ (pickProc s).rdy = s.rdy ∧
     (pickProc s).mem = s.mem ∧ (pickProc s).proc_ptr = s.proc_ptr ∧
     (pickProc s).notify_buffer = s.notify_buffer ∧
     (pickProc s).notify_bitmap = s.notify_bitmap) ∧
    ((∀ q ∈ s.rdy, q = []) → pickProc s = s) ∧
    (∀ n, pickFrom s.rdy = some n →
      (procAddr s n).p_priv.s_flags_billable = false →
      (pickProc s).next_ptr = n ∧ (pickProc s).bill_ptr = s.bill_ptr) := by
  refine ⟨⟨by simp, by simp, by simp, by simp, by simp, by simp⟩, ?_, ?_⟩
  · intro h
    unfold pickProc
    rw [pickFrom_eq_none_of_all_empty h]
  · intro n hn hb
    unfold pickProc
    rw [hn]
    simp [hb]

/-- Concrete state for the C10 witness: one empty system of queues and one
with a non-`BILLABLE` process 3 at queue 1. -/
def stC10 : KState := mkState (List.replicate 8 default) [[], [3]]

/-- Witness for C10 at concrete states: the empty-queue case returns the
state unchanged, and electing the non-`BILLABLE` head 3 leaves `bill_ptr`
alone. -/
theorem pick_proc_frame_witness :
    pickProc (mkState [] [[], []]) = mkState [] [[], []] ∧
    ((pickProc stC10).next_ptr = 3 ∧ (pickProc stC10).bill_ptr = stC10.bill_ptr) :=
  ⟨(pick_proc_frame (mkState [] [[], []])).2.1 (by decide),
   (pick_proc_frame stC10).2.2 3 (by decide) (by decide)⟩

/-! ### Claims about the deadlock check of `mini_send` (C3, C8) -/

/-- Claim C3: when the `SENDING` chain from `dst` reaches the caller,
`mini_send` returns `ELOCKED` with the state unchanged, so no process's
`p_rts_flags`, `p_sendto`, `p_messbuf`, `p_caller_q` or ready-queue
membership changes and the blocked chain stays blocked. -/
theorem mini_send_elocked (env : KEnv) (s : KState) (caller dst : Int)
    (m_ptr : Nat) (flags : Nat)
    (h : deadlockWalk s caller s.procs.length dst = some true) :
    miniSend env s caller dst m_ptr flags = some (ELOCKED, s) := by
  unfold miniSend
  rw [h]

/-- Concrete state for the C3 witness: process 1 is blocked sending to
process 0, and 0 now sends to 1. -/
def stC3 : KState :=
  mkState (List.replicate 5 default ++
    [{ (default : Proc) with
       p_rts_flags := { slot_free := false, sending := true,
                        receiving := false, other := false },
       p_sendto := 0 }]) [[0], [], []]

/-- Witness for C3: sending from 0 to the process 1 that is blocked
sending to 0 fails with `ELOCKED` and the state is untouched. -/
theorem mini_send_elocked_witness :
    miniSend env0 stC3 0 1 4 0 = some (ELOCKED, stC3) :=
  mini_send_elocked env0 stC3 0 1 4 0 (by decide)

theorem chainNodes_sending {s : KState} {x : Int} :
    ∀ {fuel : Nat} {start : Int}, x ∈ chainNodes s fuel start →
      (procAddr s x).p_rts_flags.sending = true := by
  intro fuel
  induction fuel with
  | zero => intro start h; simp [chainNodes] at h
  | succ f ih =>
      intro start h
      unfold chainNodes at h
      by_cases hs : (procAddr s start).p_rts_flags.sending
      · simp only [hs, if_true] at h
        rcases List.mem_cons.mp h with rfl | h2
        · exact hs
        · exact ih h2
      · simp [hs] at h

theorem chain_short_walk_some {s : KState} {caller : Int} :
    ∀ {fuel : Nat} {start : Int},
      (chainNodes s fuel start).length < fuel →
      deadlockWalk s caller fuel start ≠ none := by
  intro fuel
  induction fuel with
  | zero => intro start h; omega
  | succ f ih =>
      intro start h
      unfold deadlockWalk
      by_cases hs : (procAddr s start).p_rts_flags.sending
      · simp only [hs, if_true]
        by_cases hc : (procAddr s start).p_sendto = caller
        · simp [hc]
        · simp only [hc, if_false]
          apply ih
          unfold chainNodes at h
          simp only [hs, if_true, List.length_cons] at h
          omega
      · simp [hs]

/-- Claim C8: under the acyclicity invariant, rendered as the inspected
`SENDING` chain having no duplicate slots, the chain visits each process
slot at most once, is strictly shorter than the number of slots, and the
deadlock-check loop of `mini_send` terminates within table-size many
steps (the fuel is never exhausted). -/
theorem deadlock_check_terminates (s : KState) (caller dst : Int)
    (hnodup : (chainNodes s s.procs.length dst).Nodup)
    (hvalid : ∀ x ∈ chainNodes s s.procs.length dst,
      -NR_TASKS ≤ x ∧ slotIdx x < s.procs.length)
    (hcv : -NR_TASKS ≤ caller)
    (hcs : slotIdx caller < s.procs.length)
    (hcns : (procAddr s caller).p_rts_flags.sending = false) :
    (chainNodes s s.procs.length dst).length < s.procs.length ∧
    deadlockWalk s caller s.procs.length dst ≠ none := by
  set l := chainNodes s s.procs.length dst with hl
  have hcnotin : caller ∉ l := by
    intro hin
    have := chainNodes_sending (s := s) (x := caller) (hl ▸ hin)
    rw [hcns] at this
    exact Bool.false_ne_true this
  have hmapnd : (l.map slotIdx).Nodup := by
    refine List.Nodup.map_on ?_ hnodup
    intro x hx y hy hxy
    exact slotIdx_inj (hvalid x (hl ▸ hx)).1 (hvalid y (hl ▸ hy)).1 hxy
  have hsub : (l.map slotIdx).toFinset ⊆
      (Finset.range s.procs.length).erase (slotIdx caller) := by
    intro z hz
    rw [List.mem_toFinset, List.mem_map] at hz
    obtain ⟨x, hx, rfl⟩ := hz
    rw [Finset.mem_erase, Finset.mem_range]
    refine ⟨?_, (hvalid x (hl ▸ hx)).2⟩
    intro hzc
    exact hcnotin (slotIdx_inj (hvalid x (hl ▸ hx)).1 hcv hzc ▸ hx)
  have hcard : (l.map slotIdx).length ≤ s.procs.length - 1 := by
    have h1 := Finset.card_le_card hsub
    rw [List.toFinset_card_of_nodup hmapnd] at h1
    rwa [Finset.card_erase_of_mem (Finset.mem_range.mpr hcs),
      Finset.card_range] at h1
  have hlen : l.length < s.procs.length := by
    rw [← List.length_map l slotIdx]
    omega
  exact ⟨hlen, chain_short_walk_some hlen⟩

/-- Concrete state for the C8 witness: a two-link `SENDING` chain
1 → 2 → 3 with 3 not sending and caller 0 unrelated. -/
def stC8 : KState :=
  mkState (List.replicate 5 default ++
    [{ (default : Proc) with
       p_rts_flags := { slot_free := false, sending := true,
                        receiving := false, other := false },
       p_sendto := 2 },
     { (default : Proc) with
       p_rts_flags := { slot_free := false, sending := true,
                        receiving := false, other := false },
       p_sendto := 3 },
     (default : Proc)]) [[0], [], []]

/-- Witness for C8: on the concrete chain the walk inspects 2 of the 8
slots and the fueled walk succeeds. -/
theorem deadlock_check_terminates_witness :
    (chainNodes stC8 stC8.procs.length 1).length < stC8.procs.length ∧
    deadlockWalk stC8 0 stC8.procs.length 1 ≠ none :=
  deadlock_check_terminates stC8 0 1 (by decide) (by decide) (by decide)
    (by decide) (by decide)

/-! ### Claim about the `mini_send` rendezvous fast path (C2) -/

theorem deadlockWalk_of_not_sending {s : KState} {caller dst : Int}
    {fuel : Nat} (hf : 0 < fuel)
    (h : (procAddr s dst).p_rts_flags.sending = false) :
    deadlockWalk s caller fuel dst = some false := by
  cases fuel with
  | zero => omega
  | succ f => unfold deadlockWalk; simp [h]

/-- Claim C2: with `dst` blocked in a matching receive (`RECEIVING` set,
`SENDING` clear, `p_getfrom` accepting the caller), `mini_send` copies the
caller's message into `dst`'s `p_messbuf`, clears `dst`'s `RECEIVING`
flag, enqueues `dst` via `ready` exactly when its `p_rts_flags` became 0,
and returns `OK` with the caller untouched: the caller's slot (its
`p_rts_flags`, `p_sendto`, everything) and its ready-queue memberships are
unchanged, and `dst`'s `p_caller_q` is unchanged. -/
theorem mini_send_rendezvous (env : KEnv) (s : KState) (caller dst : Int)
    (m_ptr : Nat) (flags : Nat)
    (hdv : -NR_TASKS ≤ dst) (hcv : -NR_TASKS ≤ caller) (hne : caller ≠ dst)
    (hds : slotIdx dst < s.procs.length)
    (hrecv : (procAddr s dst).p_rts_flags.receiving = true)
    (hsend : (procAddr s dst).p_rts_flags.sending = false)
    (hfrom : (procAddr s dst).p_getfrom = ANY ∨
             (procAddr s dst).p_getfrom = caller) :
    ∃ s2, miniSend env s caller dst m_ptr flags = some (OK, s2) ∧
      s2.mem (procAddr s dst).p_messbuf = s.mem m_ptr ∧
      (procAddr s2 dst).p_rts_flags.receiving = false ∧
      procAddr s2 caller = procAddr s caller ∧
      (procAddr s2 dst).p_caller_q = (procAddr s dst).p_caller_q ∧
      s2.proc_ptr = s.proc_ptr ∧
      (∀ q, caller ∈ s2.rdy.getD q [] ↔ caller ∈ s.rdy.getD q []) ∧
      ((procAddr s dst).p_rts_flags.slot_free = false ∧
       (procAddr s dst).p_rts_flags.other = false →
        s2.rdy = s.rdy.set (procAddr s dst).p_priority
          (enqueuePolicy (s.rdy.getD (procAddr s dst).p_priority []) dst
            (procAddr s dst).p_priv.s_flags_rdy_q_head)) ∧
      ((procAddr s dst).p_rts_flags.slot_free = true ∨
       (procAddr s dst).p_rts_flags.other = true →
        s2.rdy = s.rdy) := by
  have hne2 : slotIdx caller ≠ slotIdx dst := slotIdx_ne hcv hdv hne
  have hlen : 0 < s.procs.length := Nat.lt_of_le_of_lt (Nat.zero_le _) hds
  have hwalk :=
    @deadlockWalk_of_not_sending s caller dst s.procs.length hlen hsend
  have hcond : (procAddr s dst).p_rts_flags.receiving = true ∧
      ¬ (procAddr s dst).p_rts_flags.sending = true ∧
      ((procAddr s dst).p_getfrom = ANY ∨
       (procAddr s dst).p_getfrom = caller) := by
    refine ⟨hrecv, ?_, hfrom⟩
    rw [hsend]
    exact Bool.false_ne_true
  unfold miniSend
  rw [hwalk]
  simp only [if_pos hcond]
  set s1 : KState :=
    { s with mem := memWrite s.mem (procAddr s dst).p_messbuf (s.mem m_ptr) }
    with hs1
  set s2 : KState := updateProc s1 dst (fun p =>
    { p with p_rts_flags := { p.p_rts_flags with receiving := false } })
    with hs2
  have hs1procs : s1.procs = s.procs := rfl
  have haddr1 : procAddr s1 dst = procAddr s dst := rfl
  have hds1 : slotIdx dst < s1.procs.length := hds
  have hdst2 : procAddr s2 dst =
      { procAddr s dst with p_rts_flags :=
          { (procAddr s dst).p_rts_flags with receiving := false } } := by
    rw [hs2, procAddr_updateProc_self s1 dst _ hds1]
    rfl
  have hcaller2 : procAddr s2 caller = procAddr s caller := by
    rw [hs2, procAddr_updateProc_ne s1 dst caller _ hne2.symm]
    rfl
  have hmem2 : s2.mem = memWrite s.mem (procAddr s dst).p_messbuf (s.mem m_ptr) := rfl
  have hrdy2 : s2.rdy = s.rdy := rfl
  have hpp2 : s2.proc_ptr = s.proc_ptr := rfl
  by_cases hz : (procAddr s2 dst).p_rts_flags.isZero
  · rw [if_pos hz]
    have hz2 : (procAddr s dst).p_rts_flags.slot_free = false ∧
        (procAddr s dst).p_rts_flags.other = false := by
      rw [hdst2] at hz
      unfold Rts.isZero at hz
      simp only [Bool.and_eq_true, Bool.not_eq_true'] at hz
      exact ⟨hz.1.1.1, hz.2⟩
    refine ⟨readyK s2 dst, rfl, ?_, ?_, ?_, ?_, ?_, ?_, ?_, ?_⟩
    · show (readyK s2 dst).mem (procAddr s dst).p_messbuf = s.mem m_ptr
      unfold readyK
      rw [pickProc_mem]
      show s2.mem (procAddr s dst).p_messbuf = s.mem m_ptr
      rw [hmem2]
      unfold memWrite
      simp
    · show (procAddr (readyK s2 dst) dst).p_rts_flags.receiving = false
      unfold readyK
      rw [procAddr_pickProc]
      show (procAddr s2 dst).p_rts_flags.receiving = false
      rw [hdst2]
    · show procAddr (readyK s2 dst) caller = procAddr s caller
      unfold readyK
      rw [procAddr_pickProc]
      show procAddr s2 caller = procAddr s caller
      exact hcaller2
    · show (procAddr (readyK s2 dst) dst).p_caller_q = (procAddr s dst).p_caller_q
      unfold readyK
      rw [procAddr_pickProc]
      show (procAddr s2 dst).p_caller_q = (procAddr s dst).p_caller_q
      rw [hdst2]
    · show (readyK s2 dst).proc_ptr = s.proc_ptr
      unfold readyK
      rw [pickProc_proc_ptr]
      rfl
    · intro q
      show caller ∈ (readyK s2 dst).rdy.getD q [] ↔ caller ∈ s.rdy.getD q []
      unfold readyK
      rw [pickProc_rdy]
      show caller ∈ (s2.rdy.set (procAddr s2 dst).p_priority
        (enqueuePolicy (s2.rdy.getD (procAddr s2 dst).p_priority []) dst
          (procAddr s2 dst).p_priv.s_flags_rdy_q_head)).getD q [] ↔
        caller ∈ s.rdy.getD q []
      rw [hrdy2, hdst2]
      by_cases hq : (procAddr s dst).p_priority = q
      · subst hq
        by_cases hqlen : (procAddr s dst).p_priority < s.rdy.length
        · rw [List.getD_set_self hqlen]
          rw [mem_enqueuePolicy]
          simp [hne]
        · rw [List.set_eq_of_length_le (Nat.le_of_not_lt hqlen)]
      · rw [List.getD_set_ne hq]
    · intro _
      show (readyK s2 dst).rdy = s.rdy.set (procAddr s dst).p_priority
        (enqueuePolicy (s.rdy.getD (procAddr s dst).p_priority []) dst
          (procAddr s dst).p_priv.s_flags_rdy_q_head)
      unfold readyK
      rw [pickProc_rdy]
      rw [hrdy2, hdst2]
    · intro hcontra
      exfalso
      rcases hcontra with hsf | hot
      · exact Bool.false_ne_true (hz2.1.symm.trans hsf)
      · exact Bool.false_ne_true (hz2.2.symm.trans hot)
  · rw [if_neg hz]
    have hz2 : (procAddr s dst).p_rts_flags.slot_free = true ∨
        (procAddr s dst).p_rts_flags.other = true := by
      rcases Bool.eq_false_or_eq_true (procAddr s dst).p_rts_flags.slot_free
        with h1 | h1
      · exact Or.inl h1
      · rcases Bool.eq_false_or_eq_true (procAddr s dst).p_rts_flags.other
          with h2 | h2
        · exact Or.inr h2
        · exfalso
          apply hz
          rw [hdst2]
          unfold Rts.isZero
          simp [h1, h2, hsend]
    refine ⟨s2, rfl, ?_, ?_, hcaller2, ?_, hpp2, ?_, ?_, fun _ => hrdy2⟩
    · rw [hmem2]
      unfold memWrite
      simp
    · rw [hdst2]
    · rw [hdst2]
    · intro q
      rw [hrdy2]
    · intro hcontra
      exfalso
      rcases hz2 with hsf | hot
      · exact Bool.false_ne_true (hcontra.1.symm.trans hsf)
      · exact Bool.false_ne_true (hcontra.2.symm.trans hot)

/-- Concrete state for the C2 witness: process 1 blocked in
`RECEIVE(ANY)` with message buffer 9, process 0 about to send. -/
def stC2 : KState :=
  mkState (List.replicate 5 default ++
    [{ (default : Proc) with
       p_rts_flags := { slot_free := false, sending := false,
                        receiving := true, other := false },
       p_getfrom := ANY, p_messbuf := 9, p_priority := 1 }]) [[0], [], []]

/-- Witness for C2: sending from 0 to the blocked receiver 1 delivers the
message, wakes 1 and leaves 0 alone. -/
theorem mini_send_rendezvous_witness :
    ∃ s2, miniSend env0 stC2 0 1 4 0 = some (OK, s2) ∧
      s2.mem (procAddr stC2 1).p_messbuf = stC2.mem 4 ∧
      (procAddr s2 1).p_rts_flags.receiving = false ∧
      procAddr s2 0 = procAddr stC2 0 ∧
      (procAddr s2 1).p_caller_q = (procAddr stC2 1).p_caller_q ∧
      s2.proc_ptr = stC2.proc_ptr ∧
      (∀ q, (0 : Int) ∈ s2.rdy.getD q [] ↔ (0 : Int) ∈ stC2.rdy.getD q []) ∧
      ((procAddr stC2 1).p_rts_flags.slot_free = false ∧
       (procAddr stC2 1).p_rts_flags.other = false →
        s2.rdy = stC2.rdy.set (procAddr stC2 1).p_priority
          (enqueuePolicy (stC2.rdy.getD (procAddr stC2 1).p_priority []) 1
            (procAddr stC2 1).p_priv.s_flags_rdy_q_head)) ∧
      ((procAddr stC2 1).p_rts_flags.slot_free = true ∨
       (procAddr stC2 1).p_rts_flags.other = true →
        s2.rdy = stC2.rdy) :=
  mini_send_rendezvous env0 stC2 0 1 4 0 (by decide) (by decide) (by decide)
    (by decide) (by decide) (by decide) (Or.inl (by decide))

/-! ### Claim about `lock_send` (C9) -/

/-- Concrete state for C9: `proc_ptr` is 0 and destination 1 is blocked
sending to 0, so 1 is not in a matching receiving state. -/
def stC9 : KState :=
  mkState (List.replicate 5 default ++
    [{ (default : Proc) with
       p_rts_flags := { slot_free := false, sending := true,
                        receiving := false, other := false },
       p_sendto := 0 }]) [[0], [], []]

/-- Counterexample to C9 as stated: destination 1 is not in a matching
receiving state (its `SENDING` flag is set, sending to the caller), yet
`lock_send` returns `ELOCKED`, not `ENOTREADY` — the deadlock check fires
before the non-blocking bail-out. -/
theorem lock_send_elocked_cex :
    ¬ ((procAddr stC9 1).p_rts_flags.receiving = true ∧
       ¬ (procAddr stC9 1).p_rts_flags.sending = true ∧
       ((procAddr stC9 1).p_getfrom = ANY ∨
        (procAddr stC9 1).p_getfrom = stC9.proc_ptr)) ∧
    lockSend env0 stC9 1 4 = some (ELOCKED, stC9) ∧
    ELOCKED ≠ ENOTREADY :=
  ⟨by decide, rfl, by decide⟩

/-- Claim C9 (amended): `lock_send` always invokes `mini_send` with the
`NON_BLOCKING` flag; for every destination that is not in a matching
receiving state it returns without mutating any state — `ENOTREADY`, or
`ELOCKED` when the `SENDING` chain from the destination reaches the
caller — so the caller is never marked `SENDING`, never enqueued on the
destination's `p_caller_q`, and never removed from the ready queues: a
kernel-level send can never block the calling task. -/
theorem lock_send_nonblocking (env : KEnv) (s : KState) (dst : Int)
    (m_ptr : Nat) (b : Bool)
    (hb : deadlockWalk s s.proc_ptr s.procs.length dst = some b)
    (hnr : ¬ ((procAddr s dst).p_rts_flags.receiving = true ∧
              ¬ (procAddr s dst).p_rts_flags.sending = true ∧
              ((procAddr s dst).p_getfrom = ANY ∨
               (procAddr s dst).p_getfrom = s.proc_ptr))) :
    lockSend env s dst m_ptr = some (if b then ELOCKED else ENOTREADY, s) := by
  unfold lockSend miniSend
  rw [hb]
  cases b with
  | true => rfl
  | false =>
      simp only [if_neg hnr]
      rw [if_neg (by decide : ¬ NON_BLOCKING &&& NON_BLOCKING = 0)]
      rfl

/-- Second concrete state for C9: destination 1 idle but not receiving. -/
def stC9b : KState := mkState (List.replicate 6 default) [[0], []]

/-- Witness for the amended C9: with destination 1 not receiving and no
deadlock chain, `lock_send` returns `ENOTREADY` and the state is
untouched. -/
theorem lock_send_nonblocking_witness :
    lockSend env0 stC9b 1 4 = some (if false then ELOCKED else ENOTREADY, stC9b) :=
  lock_send_nonblocking env0 stC9b 1 4 false (by decide) (by decide)

/-! ### Claim about the `sys_call` validation order (C4) -/

/-- Claim C4: the validation checks of `sys_call` run in the order
privilege (`ECALLDENIED`), endpoint (`EBADSRCDST`), buffer address
(`EFAULT`, only for functions that carry a message), send mask
(`ECALLDENIED`) and destination liveness (`EDEADDST`), both only for
functions with SEND semantics; the first applicable error is returned and
the failing call leaves the state unchanged; an unknown function that
passes validation fails `EBADCALL` with the state unchanged. -/
theorem sys_call_validation (env : KEnv) (s : KState) (call_nr : Nat)
    (src_dst : Int) (m_ptr : Nat) :
    (privFail (procAddr s s.proc_ptr) (call_nr &&& SYSCALL_FUNC) src_dst →
      sysCall env s call_nr src_dst m_ptr = some (ECALLDENIED, s)) ∧
    (¬ privFail (procAddr s s.proc_ptr) (call_nr &&& SYSCALL_FUNC) src_dst →
     endpointFail (call_nr &&& SYSCALL_FUNC) src_dst →
      sysCall env s call_nr src_dst m_ptr = some (EBADSRCDST, s)) ∧
    (¬ privFail (procAddr s s.proc_ptr) (call_nr &&& SYSCALL_FUNC) src_dst →
     ¬ endpointFail (call_nr &&& SYSCALL_FUNC) src_dst →
     bufferFail (procAddr s s.proc_ptr) (call_nr &&& SYSCALL_FUNC) m_ptr →
      sysCall env s call_nr src_dst m_ptr = some (EFAULT, s)) ∧
    (¬ privFail (procAddr s s.proc_ptr) (call_nr &&& SYSCALL_FUNC) src_dst →
     ¬ endpointFail (call_nr &&& SYSCALL_FUNC) src_dst →
     ¬ bufferFail (procAddr s s.proc_ptr) (call_nr &&& SYSCALL_FUNC) m_ptr →
     sendMaskFail env (procAddr s s.proc_ptr) (call_nr &&& SYSCALL_FUNC) src_dst →
      sysCall env s call_nr src_dst m_ptr = some (ECALLDENIED, s)) ∧
    (¬ privFail (procAddr s s.proc_ptr) (call_nr &&& SYSCALL_FUNC) src_dst →
     ¬ endpointFail (call_nr &&& SYSCALL_FUNC) src_dst →
     ¬ bufferFail (procAddr s s.proc_ptr) (call_nr &&& SYSCALL_FUNC) m_ptr →
     ¬ sendMaskFail env (procAddr s s.proc_ptr) (call_nr &&& SYSCALL_FUNC) src_dst →
     deadDstFail s (call_nr &&& SYSCALL_FUNC) src_dst →
      sysCall env s call_nr src_dst m_ptr = some (EDEADDST, s)) ∧
    (¬ privFail (procAddr s s.proc_ptr) (call_nr &&& SYSCALL_FUNC) src_dst →
     ¬ endpointFail (call_nr &&& SYSCALL_FUNC) src_dst →
     ¬ bufferFail (procAddr s s.proc_ptr) (call_nr &&& SYSCALL_FUNC) m_ptr →
     ¬ sendMaskFail env (procAddr s s.proc_ptr) (call_nr &&& SYSCALL_FUNC) src_dst →
     ¬ deadDstFail s (call_nr &&& SYSCALL_FUNC) src_dst →
     call_nr &&& SYSCALL_FUNC ≠ SENDREC →
     call_nr &&& SYSCALL_FUNC ≠ SEND →
     call_nr &&& SYSCALL_FUNC ≠ RECEIVE →
     call_nr &&& SYSCALL_FUNC ≠ ALERT →
     call_nr &&& SYSCALL_FUNC ≠ NOTIFY →
     call_nr &&& SYSCALL_FUNC ≠ ECHO →
      sysCall env s call_nr src_dst m_ptr = some (EBADCALL, s)) := by
  refine ⟨?_, ?_, ?_, ?_, ?_, ?_⟩
  · intro h1
    unfold sysCall
    rw [if_pos h1]
  · intro h1 h2
    unfold sysCall
    rw [if_neg h1, if_pos h2]
  · intro h1 h2 h3
    unfold sysCall
    rw [if_neg h1, if_neg h2, if_pos h3]
  · intro h1 h2 h3 h4
    unfold sysCall
    rw [if_neg h1, if_neg h2, if_neg h3, if_pos h4]
  · intro h1 h2 h3 h4 h5
    unfold sysCall
    rw [if_neg h1, if_neg h2, if_neg h3, if_neg h4, if_pos h5]
  · intro h1 h2 h3 h4 h5 hsr hsd hrc hal hnt hec
    unfold sysCall
    rw [if_neg h1, if_neg h2, if_neg h3, if_neg h4, if_neg h5,
      if_neg (by simp [hsr, hsd]), if_neg hrc, if_neg hal, if_neg hnt,
      if_neg hec]

/-- Concrete state for the C4 witness, privilege-failure side: the caller
slot 0 has an empty call mask. -/
def stC4a : KState := mkState (List.replicate 6 default) [[0]]

/-- Concrete state for the C4 witness, `EBADCALL` side: the caller slot 0
may make any call, may send anywhere, and has a memory map that admits the
message buffer; the destination slot 1 is live. -/
def stC4b : KState :=
  mkState (List.replicate 4 default ++
    [{ (default : Proc) with
       p_priv := { (default : Priv) with
                   s_call_mask := 65535,
                   s_send_mask := [List.replicate 32 true] },
       p_memmap_s_len := 1000 },
     (default : Proc)]) [[0]]

/-- Witness for C4: a call without privilege fails `ECALLDENIED` with the
state unchanged, and a validated call with the unknown function code 15
fails `EBADCALL` with the state unchanged. -/
theorem sys_call_validation_witness :
    sysCall env0 stC4a 1 1 4 = some (ECALLDENIED, stC4a) ∧
    sysCall env0 stC4b 15 1 4 = some (EBADCALL, stC4b) :=
  ⟨(sys_call_validation env0 stC4a 1 1 4).1 (by decide),
   (sys_call_validation env0 stC4b 15 1 4).2.2.2.2.2 (by decide) (by decide)
     (by decide) (by decide) (by decide) (by decide) (by decide) (by decide)
     (by decide) (by decide) (by decide)⟩

/-! ### Claim about the notification pickup of `mini_receive` (C1) -/

theorem buildMess_source (env : KEnv) (s : KState) (src dstN : Int) :
    (buildMess env s src dstN).1.m_source = src := by
  unfold buildMess
  split
  · rfl
  · split <;> rfl

theorem buildMess_type (env : KEnv) (s : KState) (src dstN : Int) :
    (buildMess env s src dstN).1.m_type = NOTIFY_FROM src := by
  unfold buildMess
  split
  · rfl
  · split <;> rfl

theorem buildMess_timestamp (env : KEnv) (s : KState) (src dstN : Int) :
    (buildMess env s src dstN).1.notify_timestamp = env.uptime := by
  unfold buildMess
  split
  · rfl
  · split <;> rfl

theorem buildMess_pending (env : KEnv) (s : KState) (src dstN n : Int) :
    (procAddr (buildMess env s src dstN).2 n).p_priv.s_notify_pending =
      (procAddr s n).p_priv.s_notify_pending := by
  unfold buildMess
  split
  · exact procAddr_updateProc_field s dstN _ n
      (fun p => p.p_priv.s_notify_pending) (fun p => rfl)
  · split
    · exact procAddr_updateProc_field s dstN _ n
        (fun p => p.p_priv.s_notify_pending) (fun p => rfl)
    · rfl

theorem buildMess_rts (env : KEnv) (s : KState) (src dstN n : Int) :
    (procAddr (buildMess env s src dstN).2 n).p_rts_flags =
      (procAddr s n).p_rts_flags := by
  unfold buildMess
  split
  · exact procAddr_updateProc_field s dstN _ n (fun p => p.p_rts_flags)
      (fun p => rfl)
  · split
    · exact procAddr_updateProc_field s dstN _ n (fun p => p.p_rts_flags)
        (fun p => rfl)
    · rfl

theorem buildMess_rdy (env : KEnv) (s : KState) (src dstN : Int) :
    (buildMess env s src dstN).2.rdy = s.rdy := by
  unfold buildMess
  split
  · rfl
  · split <;> rfl

theorem buildMess_proc_ptr (env : KEnv) (s : KState) (src dstN : Int) :
    (buildMess env s src dstN).2.proc_ptr = s.proc_ptr := by
  unfold buildMess
  split
  · rfl
  · split <;> rfl

theorem buildMess_mem (env : KEnv) (s : KState) (src dstN : Int) :
    (buildMess env s src dstN).2.mem = s.mem := by
  unfold buildMess
  split
  · rfl
  · split <;> rfl

/-- Concrete state for the C1 counterexample: the caller 0 has pending
bits for source ids 0 and 1 in the same chunk; under `env0` id 0 is
process 0 and id 1 is process 1. -/
def stC1 : KState :=
  mkState (List.replicate 4 default ++
    [{ (default : Proc) with
       p_priv := { (default : Priv) with
         s_notify_pending := [true :: true :: List.replicate 30 false] } },
     (default : Proc)]) [[0]]

/-- Counterexample to C1 as stated: caller 0 (not `SENDING`, no
`FRESH_ANSWER`) requests `src = 1` while the bit of source id 1 (mapping
to process 1) is set; the claim demands that `mini_receive` clear that bit
and deliver the notification, but because the lower bit of the same chunk
belongs to the non-matching source 0, the chunk-level `continue` skips the
whole chunk: the call instead blocks the caller (`RECEIVING` set) with the
bit still pending. -/
theorem mini_receive_chunk_skip_cex :
    getSysBit (procAddr stC1 0).p_priv.s_notify_pending 1 = true ∧
    env0.id2nr 1 = 1 ∧
    (procAddr stC1 0).p_rts_flags.sending = false ∧
    (0 : Nat) &&& FRESH_ANSWER = 0 ∧
    (miniReceive env0 stC1 0 1 4 0).map
      (fun r => (r.1, getSysBit (procAddr r.2 0).p_priv.s_notify_pending 1,
                 (procAddr r.2 0).p_rts_flags.receiving)) =
      some (OK, true, true) := by
  decide

/-- Delivery of a found pending notification by `mini_receive`: the inner
lemma behind the C1 and C6 theorems. -/
theorem recvPending_delivers (env : KEnv) (s : KState)
    (caller src : Int) (m_ptr : Nat) (flags : Nat) (k i : Nat) (sp : Int)
    (hcs : slotIdx caller < s.procs.length)
    (hsend : (procAddr s caller).p_rts_flags.sending = false)
    (hfa : flags &&& FRESH_ANSWER = 0)
    (hfind : findPending env src (procAddr s caller).p_priv.s_notify_pending 0 =
      some (k, i, sp)) :
    ∃ s2, miniReceive env s caller src m_ptr flags = some (OK, s2) ∧
      (s2.mem m_ptr).m_source = sp ∧
      (s2.mem m_ptr).m_type = NOTIFY_FROM sp ∧
      (s2.mem m_ptr).notify_timestamp = env.uptime ∧
      (procAddr s2 caller).p_priv.s_notify_pending =
        clearMapBit (procAddr s caller).p_priv.s_notify_pending k i ∧
      (procAddr s2 caller).p_rts_flags = (procAddr s caller).p_rts_flags ∧
      s2.rdy = s.rdy ∧
      s2.proc_ptr = s.proc_ptr := by
  have hns : ¬ (procAddr s caller).p_rts_flags.sending = true := by
    rw [hsend]
    exact Bool.false_ne_true
  unfold miniReceive
  rw [if_pos hns, if_pos hfa]
  unfold recvPending
  rw [hfind]
  set s1 : KState := updateProc s caller (fun p =>
    { p with p_priv :=
        { p.p_priv with
          s_notify_pending := clearMapBit p.p_priv.s_notify_pending k i } })
    with hs1
  have hcs1 : slotIdx caller < s1.procs.length := by
    rw [hs1]
    simpa using hcs
  have h1pending : (procAddr s1 caller).p_priv.s_notify_pending =
      clearMapBit (procAddr s caller).p_priv.s_notify_pending k i := by
    rw [hs1, procAddr_updateProc_self s caller _ hcs]
  have h1rts : (procAddr s1 caller).p_rts_flags =
      (procAddr s caller).p_rts_flags := by
    rw [hs1]
    exact procAddr_updateProc_field s caller _ caller (fun p => p.p_rts_flags)
      (fun p => rfl)
  refine ⟨_, rfl, ?_, ?_, ?_, ?_, ?_, ?_, ?_⟩
  · rw [mem_setMem, memWrite_read_self, buildMess_source]
  · rw [mem_setMem, memWrite_read_self, buildMess_type]
  · rw [mem_setMem, memWrite_read_self, buildMess_timestamp]
  · rw [procAddr_setMem, buildMess_pending, h1pending]
  · rw [procAddr_setMem, buildMess_rts, h1rts]
  · rw [rdy_setMem, buildMess_rdy]
    rfl
  · rw [proc_ptr_setMem, buildMess_proc_ptr]
    rfl

/-- Claim C1 (amended): for a caller with `SENDING` clear and without
`FRESH_ANSWER`, `mini_receive` delivers a pending notification exactly
when the chunk scan finds one, where the scan inspects only the lowest set
bit of each chunk: the first chunk whose lowest set bit both lies in range
and maps via `id_to_nr` to the requested source (any source when
`src = ANY`) supplies the delivered bit; chunks whose lowest set bit maps
to a non-matching source are skipped whole.  The found bit is cleared, a
`BuildMess`-synthesized message (source, `NOTIFY_FROM` type, timestamp) is
copied to the caller's `m_ptr` with `HARDWARE` as pseudo-source, and the
call returns `OK`; the caller's blocking state and the ready queues are
untouched. -/
theorem mini_receive_notify_pickup (env : KEnv) (s : KState)
    (caller src : Int) (m_ptr : Nat) (flags : Nat) (k i : Nat) (sp : Int)
    (hcs : slotIdx caller < s.procs.length)
    (hsend : (procAddr s caller).p_rts_flags.sending = false)
    (hfa : flags &&& FRESH_ANSWER = 0)
    (hfind : findPending env src (procAddr s caller).p_priv.s_notify_pending 0 =
      some (k, i, sp)) :
    ∃ s2, miniReceive env s caller src m_ptr flags = some (OK, s2) ∧
      (s2.mem m_ptr).m_source = sp ∧
      (s2.mem m_ptr).m_type = NOTIFY_FROM sp ∧
      (s2.mem m_ptr).notify_timestamp = env.uptime ∧
      (procAddr s2 caller).p_priv.s_notify_pending =
        clearMapBit (procAddr s caller).p_priv.s_notify_pending k i ∧
      (procAddr s2 caller).p_rts_flags = (procAddr s caller).p_rts_flags ∧
      s2.rdy = s.rdy ∧
      s2.proc_ptr = s.proc_ptr :=
  recvPending_delivers env s caller src m_ptr flags k i sp hcs hsend hfa hfind

/-- Concrete state for the C1 witness: the caller 0 has exactly the bit of
source id 1 pending, which maps to the requested source 1 under `env0`. -/
def stC1b : KState :=
  mkState (List.replicate 4 default ++
    [{ (default : Proc) with
       p_priv := { (default : Priv) with
         s_notify_pending := [false :: true :: List.replicate 30 false] } },
     (default : Proc)]) [[0]]

theorem List.set_set_same {α : Type _} (l : List α) (i : Nat) (a b : α) :
    (l.set i a).set i b = l.set i b := List.set_set a b l i

theorem updateProc_updateProc (s : KState) (n : Int) (f g : Proc → Proc) :
    updateProc (updateProc s n f) n g =
      updateProc s n (fun p => g (f p)) := by
  have key : (s.procs.set (slotIdx n) (f (procAddr s n))).set (slotIdx n) (g (procAddr (updateProc s n f) n)) = s.procs.set (slotIdx n) (g (f (procAddr s n))) := by
    by_cases h : slotIdx n < s.procs.length
    · rw [procAddr_updateProc_self s n f h, List.set_set_same]
    · rw [procAddr_updateProc, if_neg (fun hc => h hc.2),
        List.set_eq_of_length_le (Nat.le_of_not_lt h),
        List.set_eq_of_length_le (Nat.le_of_not_lt h),
        List.set_eq_of_length_le (Nat.le_of_not_lt h)]
  calc updateProc (updateProc s n f) n g
      = { s with procs := (s.procs.set (slotIdx n) (f (procAddr s n))).set (slotIdx n) (g (procAddr (updateProc s n f) n)) } := rfl
    _ = { s with procs := s.procs.set (slotIdx n) (g (f (procAddr s n))) } := by rw [key]
    _ = updateProc s n (fun p => g (f p)) := rfl

theorem updateProc_congr (s : KState) (n : Int) (f g : Proc → Proc)
    (h : ∀ p, f p = g p) : updateProc s n f = updateProc s n g := by
  unfold updateProc
  rw [h]

@[simp] theorem readyK_mem (s : KState) (n : Int) :
    (readyK s n).mem = s.mem := by
  unfold readyK
  rw [pickProc_mem]

@[simp] theorem readyK_procs (s : KState) (n : Int) :
    (readyK s n).procs = s.procs := by
  unfold readyK
  rw [pickProc_procs]

@[simp] theorem procAddr_readyK (s : KState) (n m : Int) :
    procAddr (readyK s n) m = procAddr s m := by
  unfold procAddr
  rw [readyK_procs]

@[simp] theorem readyK_proc_ptr (s : KState) (n : Int) :
    (readyK s n).proc_ptr = s.proc_ptr := by
  unfold readyK
  rw [pickProc_proc_ptr]

@[simp] theorem readyK_notify_buffer (s : KState) (n : Int) :
    (readyK s n).notify_buffer = s.notify_buffer := by
  unfold readyK
  rw [pickProc_notify_buffer]

@[simp] theorem readyK_notify_bitmap (s : KState) (n : Int) :
    (readyK s n).notify_bitmap = s.notify_bitmap := by
  unfold readyK
  rw [pickProc_notify_bitmap]

theorem setSysBit_idem (pm : List (List Bool)) (id : Nat) :
    setSysBit (setSysBit pm id) id = setSysBit pm id := by
  unfold setSysBit
  by_cases h : id / BITCHUNK_BITS < pm.length
  · rw [List.getD_set_self h, List.set_set_same, List.set_set_same]
  · rw [List.set_eq_of_length_le (Nat.le_of_not_lt h),
      List.set_eq_of_length_le (Nat.le_of_not_lt h)]

theorem List.getD_mem_of_lt {α : Type _} {l : List α} {n : Nat} {d : α}
    (h : n < l.length) : l.getD n d ∈ l := by
  rw [List.getD_eq_getElem?_getD, List.getElem?_eq_getElem h]
  exact List.getElem_mem h

theorem any_false_of_all_false {ch : List Bool}
    (h : ∀ x ∈ ch, x = false) : ch.any (fun b => b) = false := by
  rw [List.any_eq_false]
  intro x hx
  rw [h x hx]
  exact Bool.false_ne_true

theorem any_set_true {ch : List Bool} {b : Nat} (hb : b < ch.length) :
    (ch.set b true).any (fun x => x) = true := by
  rw [List.any_eq_true]
  exact ⟨true, List.mem_set ch b hb true, rfl⟩

theorem findIdx_set_true {ch : List Bool} {b : Nat}
    (hall : ∀ x ∈ ch, x = false) (hb : b < ch.length) :
    (ch.set b true).findIdx (fun x => x) = b := by
  induction ch generalizing b with
  | nil => simp at hb
  | cons x xs ih =>
      cases b with
      | zero =>
          show ((true : Bool) :: xs).findIdx (fun x => x) = 0
          rw [List.findIdx_cons]
          rfl
      | succ b2 =>
          rw [List.set_cons_succ, List.findIdx_cons]
          have hx : x = false := hall x (List.mem_cons_self x xs)
          rw [hx]
          show (xs.set b2 true).findIdx (fun x => x) + 1 = b2 + 1
          rw [ih (fun y hy => hall y (List.mem_cons_of_mem x hy))
            (Nat.lt_of_succ_lt_succ hb)]

theorem findPending_single (env : KEnv) (pm : List (List Bool)) (c b k : Nat)
    (hall : ∀ ch ∈ pm, ∀ x ∈ ch, x = false)
    (hc : c < pm.length) (hb : b < (pm.getD c []).length)
    (hrange : (k + c) * BITCHUNK_BITS + b < NR_SYS_PROCS) :
    findPending env ANY (pm.set c ((pm.getD c []).set b true)) k =
      some (k + c, b, env.id2nr ((k + c) * BITCHUNK_BITS + b)) := by
  induction pm generalizing c k with
  | nil => simp at hc
  | cons ch rest ih =>
      cases c with
      | zero =>
          have hb0 : b < ch.length := hb
          show findPending env ANY ((ch.set b true) :: rest) k = _
          unfold findPending
          rw [any_set_true hb0]
          simp only [if_true]
          rw [findIdx_set_true (hall ch (List.mem_cons_self ch rest)) hb0]
          rw [if_neg (Nat.not_le.mpr (by simpa using hrange))]
          rw [if_neg (by simp)]
          simp
      | succ c2 =>
          have hch : ch.any (fun x => x) = false :=
            any_false_of_all_false (hall ch (List.mem_cons_self ch rest))
          show findPending env ANY
            (ch :: rest.set c2 ((rest.getD c2 []).set b true)) k = _
          unfold findPending
          rw [if_neg (by rw [hch]; exact Bool.false_ne_true)]
          have harith : k + 1 + c2 = k + (c2 + 1) := by omega
          rw [ih c2 (k + 1) (fun q hq => hall q (List.mem_cons_of_mem ch hq))
            (Nat.lt_of_succ_lt_succ hc) hb (by rw [harith]; exact hrange),
            harith]

theorem clearMapBit_setSysBit (pm : List (List Bool)) (id : Nat)
    (hc : id / BITCHUNK_BITS < pm.length)
    (hb : id % BITCHUNK_BITS <
      (pm.getD (id / BITCHUNK_BITS) []).length)
    (hfalse : (pm.getD (id / BITCHUNK_BITS) []).getD
      (id % BITCHUNK_BITS) false = false) :
    clearMapBit (setSysBit pm id) (id / BITCHUNK_BITS)
      (id % BITCHUNK_BITS) = pm := by
  have h2 : (pm.getD (id / BITCHUNK_BITS) []).set (id % BITCHUNK_BITS) false =
      pm.getD (id / BITCHUNK_BITS) [] := by
    conv_lhs => rw [← hfalse]
    exact List.set_getD_self hb
  unfold clearMapBit setSysBit
  rw [List.getD_set_self hc, List.set_set_same, List.set_set_same, h2,
    List.set_getD_self hc]

/-- N successive `mini_alert` calls from `caller` to `dst`, used to state
the coalescing law of the spec. -/
def alertIter (env : KEnv) (caller dst : Int) : Nat → KState → KState
  | 0, s => s
  | n + 1, s => alertIter env caller dst n (miniAlert env s caller dst).2

theorem miniAlert_fst (env : KEnv) (s : KState) (caller dst : Int) :
    (miniAlert env s caller dst).1 = OK := by
  simp only [miniAlert]
  split
  · rfl
  · rfl

/-- The slot update of `mini_alert`'s pending path: set bit `idv` of the
slot's pending bitmap. -/
def alertSetBit (idv : Nat) : Proc → Proc := fun p =>
  { p with p_priv := { p.p_priv with
      s_notify_pending := setSysBit p.p_priv.s_notify_pending idv } }

theorem miniAlert_pending_eq (env : KEnv) (s : KState) (caller dst : Int)
    (hnm : ¬ ((procAddr s dst).p_rts_flags.receiving = true ∧
              ¬ (procAddr s dst).p_rts_flags.sending = true ∧
              ((procAddr s dst).p_getfrom = ANY ∨
               (procAddr s dst).p_getfrom = caller))) :
    (miniAlert env s caller dst).2 =
      updateProc s dst (alertSetBit (procAddr s caller).p_priv.s_id) := by
  unfold miniAlert
  rw [if_neg hnm]
  rfl

theorem miniAlert_idem (env : KEnv) (s : KState) (caller dst : Int)
    (hnm : ¬ ((procAddr s dst).p_rts_flags.receiving = true ∧
              ¬ (procAddr s dst).p_rts_flags.sending = true ∧
              ((procAddr s dst).p_getfrom = ANY ∨
               (procAddr s dst).p_getfrom = caller))) :
    (miniAlert env (miniAlert env s caller dst).2 caller dst).2 =
      (miniAlert env s caller dst).2 := by
  rw [miniAlert_pending_eq env s caller dst hnm]
  have hrts : (procAddr (updateProc s dst
      (alertSetBit (procAddr s caller).p_priv.s_id)) dst).p_rts_flags =
      (procAddr s dst).p_rts_flags :=
    procAddr_updateProc_field s dst _ dst (fun p => p.p_rts_flags)
      (fun p => rfl)
  have hgf : (procAddr (updateProc s dst
      (alertSetBit (procAddr s caller).p_priv.s_id)) dst).p_getfrom =
      (procAddr s dst).p_getfrom :=
    procAddr_updateProc_field s dst _ dst (fun p => p.p_getfrom)
      (fun p => rfl)
  have hid : (procAddr (updateProc s dst
      (alertSetBit (procAddr s caller).p_priv.s_id)) caller).p_priv.s_id =
      (procAddr s caller).p_priv.s_id :=
    procAddr_updateProc_field s dst _ caller (fun p => p.p_priv.s_id)
      (fun p => rfl)
  rw [miniAlert_pending_eq _ _ _ _ (by rw [hrts, hgf]; exact hnm), hid,
    updateProc_updateProc]
  apply updateProc_congr
  intro p
  unfold alertSetBit
  simp [setSysBit_idem]

theorem alertIter_fixed (env : KEnv) (caller dst : Int) {s1 : KState}
    (hfix : (miniAlert env s1 caller dst).2 = s1) :
    ∀ n, alertIter env caller dst n s1 = s1 := by
  intro n
  induction n with
  | zero => rfl
  | succ m ih =>
      show alertIter env caller dst m (miniAlert env s1 caller dst).2 = s1
      rw [hfix]
      exact ih

/-- Witness for the amended C1: with the matching bit lowest in its chunk
the pending notification from source 1 is delivered and cleared. -/
theorem mini_receive_notify_pickup_witness :
    ∃ s2, miniReceive env0 stC1b 0 1 4 0 = some (OK, s2) ∧
      (s2.mem 4).m_source = 1 ∧
      (s2.mem 4).m_type = NOTIFY_FROM 1 ∧
      (s2.mem 4).notify_timestamp = env0.uptime ∧
      (procAddr s2 0).p_priv.s_notify_pending =
        clearMapBit (procAddr stC1b 0).p_priv.s_notify_pending 0 1 ∧
      (procAddr s2 0).p_rts_flags = (procAddr stC1b 0).p_rts_flags ∧
      s2.rdy = stC1b.rdy ∧
      s2.proc_ptr = stC1b.proc_ptr :=
  mini_receive_notify_pickup env0 stC1b 0 1 4 0 0 1 1 (by decide) (by decide)
    (by decide) (by decide)

/-! ### Claim about `mini_alert` coalescing (C6) -/

/-- Claim C6: `mini_alert` never fails and never blocks — it returns `OK`
for every caller and destination; on a destination that is not in a
matching receiving state it works by setting bit `priv(caller)->s_id` in
the destination's pending bitmap, setting the same bit is idempotent, so N
alerts (N ≥ 1) from `caller` to such a destination leave exactly the state
of one alert; and the destination's subsequent receive delivers exactly
one notification carrying the caller as source, returning the pending
bitmap to its prior (empty) value. -/
theorem mini_alert_coalescing (env : KEnv) (s : KState) (caller dst : Int)
    (N : Nat) (m_ptr : Nat)
    (hN : 1 ≤ N)
    (hds : slotIdx dst < s.procs.length)
    (hnm : ¬ ((procAddr s dst).p_rts_flags.receiving = true ∧
              ¬ (procAddr s dst).p_rts_flags.sending = true ∧
              ((procAddr s dst).p_getfrom = ANY ∨
               (procAddr s dst).p_getfrom = caller)))
    (hdns : (procAddr s dst).p_rts_flags.sending = false)
    (hall : ∀ ch ∈ (procAddr s dst).p_priv.s_notify_pending,
      ∀ x ∈ ch, x = false)
    (hc : (procAddr s caller).p_priv.s_id / BITCHUNK_BITS <
      (procAddr s dst).p_priv.s_notify_pending.length)
    (hb : (procAddr s caller).p_priv.s_id % BITCHUNK_BITS <
      ((procAddr s dst).p_priv.s_notify_pending.getD
        ((procAddr s caller).p_priv.s_id / BITCHUNK_BITS) []).length)
    (hrange : (procAddr s caller).p_priv.s_id < NR_SYS_PROCS)
    (hid : env.id2nr (procAddr s caller).p_priv.s_id = caller) :
    (∀ t c d, (miniAlert env t c d).1 = OK) ∧
    (procAddr (miniAlert env s caller dst).2 dst).p_priv.s_notify_pending =
      setSysBit (procAddr s dst).p_priv.s_notify_pending
        (procAddr s caller).p_priv.s_id ∧
    alertIter env caller dst N s = alertIter env caller dst 1 s ∧
    (∃ s3, miniReceive env (alertIter env caller dst N s) dst ANY m_ptr 0 =
        some (OK, s3) ∧
      (s3.mem m_ptr).m_source = caller ∧
      (procAddr s3 dst).p_priv.s_notify_pending =
        (procAddr s dst).p_priv.s_notify_pending) := by
  have hpe := miniAlert_pending_eq env s caller dst hnm
  have hiter1 : alertIter env caller dst 1 s = (miniAlert env s caller dst).2 :=
    rfl
  have hiterN : alertIter env caller dst N s = (miniAlert env s caller dst).2 := by
    obtain ⟨M, rfl⟩ : ∃ M, N = M + 1 := ⟨N - 1, by omega⟩
    show alertIter env caller dst M (miniAlert env s caller dst).2 =
      (miniAlert env s caller dst).2
    exact alertIter_fixed env caller dst (miniAlert_idem env s caller dst hnm) M
  have hds1 : slotIdx dst < (miniAlert env s caller dst).2.procs.length := by
    rw [hpe]
    simpa using hds
  have hsend1 : (procAddr (miniAlert env s caller dst).2 dst).p_rts_flags.sending
      = false := by
    rw [hpe]
    exact (procAddr_updateProc_field s dst
      (alertSetBit (procAddr s caller).p_priv.s_id) dst
      (fun p => p.p_rts_flags.sending) (fun p => rfl)).trans hdns
  have hpend1 : (procAddr (miniAlert env s caller dst).2 dst).p_priv.s_notify_pending
      = setSysBit (procAddr s dst).p_priv.s_notify_pending
          (procAddr s caller).p_priv.s_id := by
    rw [hpe, procAddr_updateProc_self s dst _ hds]
    rfl
  have hsum : ((procAddr s caller).p_priv.s_id / BITCHUNK_BITS) * BITCHUNK_BITS +
      (procAddr s caller).p_priv.s_id % BITCHUNK_BITS =
      (procAddr s caller).p_priv.s_id := by
    unfold BITCHUNK_BITS
    omega
  have hfindS : findPending env ANY
      (procAddr (miniAlert env s caller dst).2 dst).p_priv.s_notify_pending 0 =
      some ((procAddr s caller).p_priv.s_id / BITCHUNK_BITS,
            (procAddr s caller).p_priv.s_id % BITCHUNK_BITS, caller) := by
    rw [hpend1]
    unfold setSysBit
    rw [findPending_single env (procAddr s dst).p_priv.s_notify_pending
      ((procAddr s caller).p_priv.s_id / BITCHUNK_BITS)
      ((procAddr s caller).p_priv.s_id % BITCHUNK_BITS) 0 hall hc hb
      (by rw [Nat.zero_add, hsum]; exact hrange)]
    rw [Nat.zero_add, hsum, hid]
  obtain ⟨s3, hr, hsrc, htype, hts, hclear, hrts3, hrdy3, hpp3⟩ :=
    recvPending_delivers env (miniAlert env s caller dst).2 dst ANY m_ptr 0
      ((procAddr s caller).p_priv.s_id / BITCHUNK_BITS)
      ((procAddr s caller).p_priv.s_id % BITCHUNK_BITS) caller hds1 hsend1
      (by decide) hfindS
  have hfalse : ((procAddr s dst).p_priv.s_notify_pending.getD
      ((procAddr s caller).p_priv.s_id / BITCHUNK_BITS) []).getD
      ((procAddr s caller).p_priv.s_id % BITCHUNK_BITS) false = false := by
    apply hall _ (List.getD_mem_of_lt hc) _ (List.getD_mem_of_lt hb)
  refine ⟨fun t c d => miniAlert_fst env t c d, hpend1, ?_, s3, ?_, hsrc, ?_⟩
  · rw [hiterN, hiter1]
  · rw [hiterN]
    exact hr
  · rw [hclear, hpend1]
    exact clearMapBit_setSysBit (procAddr s dst).p_priv.s_notify_pending
      (procAddr s caller).p_priv.s_id hc hb hfalse

/-- Concrete state for the C6 witness: process 1 (id 1 under `env0`) will
alert process 0, whose pending bitmap is empty and who is neither sending
nor receiving. -/
def stC6 : KState :=
  mkState (List.replicate 4 default ++
    [{ (default : Proc) with
       p_priv := { (default : Priv) with
         s_notify_pending := [List.replicate 32 false] } },
     { (default : Proc) with
       p_priv := { (default : Priv) with s_id := 1 } }]) [[0]]

/-- Witness for C6 at `N = 3`: three alerts equal one, and the following
receive by 0 yields exactly one notification with source 1. -/
theorem mini_alert_coalescing_witness :
    (∀ t c d, (miniAlert env0 t c d).1 = OK) ∧
    (procAddr (miniAlert env0 stC6 1 0).2 0).p_priv.s_notify_pending =
      setSysBit (procAddr stC6 0).p_priv.s_notify_pending
        (procAddr stC6 1).p_priv.s_id ∧
    alertIter env0 1 0 3 stC6 = alertIter env0 1 0 1 stC6 ∧
    (∃ s3, miniReceive env0 (alertIter env0 1 0 3 stC6) 0 ANY 4 0 =
        some (OK, s3) ∧
      (s3.mem 4).m_source = 1 ∧
      (procAddr s3 0).p_priv.s_notify_pending =
        (procAddr stC6 0).p_priv.s_notify_pending) :=
  mini_alert_coalescing env0 stC6 1 0 3 4 (by decide) (by decide) (by decide)
    (by decide) (by decide) (by decide) (by decide) (by decide) (by decide)

/-! ### Claim about `mini_notify` replacement (C5) -/

/-- Whether the `notify_buffer` record at index `i` matches a source and
type, the predicate of `mini_notify`'s replacement scan. -/
def ntfMatches (buf : List Notification) (src t : Int) (i : Nat) : Bool :=
  decide ((buf.getD i default).n_type = t ∧ (buf.getD i default).n_source = src)

/-- Number of records on a `p_ntf_q` matching a source and type. -/
def ntfCount (buf : List Notification) (src t : Int) (q : List Nat) : Nat :=
  (q.filter (ntfMatches buf src t)).length

theorem findNtfMatch_cons (buf : List Notification) (src t : Int) (j : Nat)
    (l : List Nat) :
    findNtfMatch buf src t (j :: l) =
      if (buf.getD j default).n_type = t ∧
         (buf.getD j default).n_source = src then some j
      else findNtfMatch buf src t l := rfl

theorem findNtfMatch_none_all {buf : List Notification} {src t : Int} :
    ∀ {q : List Nat}, findNtfMatch buf src t q = none →
      ∀ i ∈ q, ntfMatches buf src t i = false := by
  intro q
  induction q with
  | nil => intro _ i hi; simp at hi
  | cons j rest ih =>
      intro h i hi
      rw [findNtfMatch_cons] at h
      by_cases hj : (buf.getD j default).n_type = t ∧
          (buf.getD j default).n_source = src
      · rw [if_pos hj] at h
        exact absurd h (Option.some_ne_none j)
      · rw [if_neg hj] at h
        rcases List.mem_cons.mp hi with rfl | h2
        · unfold ntfMatches
          exact decide_eq_false hj
        · exact ih h i h2

theorem findNtfMatch_congr {buf buf2 : List Notification} {src t : Int} :
    ∀ {q : List Nat}, (∀ i ∈ q, buf2.getD i default = buf.getD i default) →
      findNtfMatch buf2 src t q = findNtfMatch buf src t q := by
  intro q
  induction q with
  | nil => intro _; rfl
  | cons j rest ih =>
      intro h
      rw [findNtfMatch_cons, findNtfMatch_cons]
      rw [h j (List.mem_cons_self j rest),
        ih (fun i hi => h i (List.mem_cons_of_mem j hi))]

theorem findNtfMatch_append_none {buf : List Notification} {src t : Int} :
    ∀ {q1 : List Nat}, findNtfMatch buf src t q1 = none → ∀ (q2 : List Nat),
      findNtfMatch buf src t (q1 ++ q2) = findNtfMatch buf src t q2 := by
  intro q1
  induction q1 with
  | nil => intro _ q2; rfl
  | cons j rest ih =>
      intro h q2
      rw [findNtfMatch_cons] at h
      rw [List.cons_append, findNtfMatch_cons]
      by_cases hj : (buf.getD j default).n_type = t ∧
          (buf.getD j default).n_source = src
      · rw [if_pos hj] at h
        exact absurd h (Option.some_ne_none j)
      · rw [if_neg hj] at h
        rw [if_neg hj]
        exact ih h q2

theorem miniNotify_replace (env : KEnv) (s : KState) (caller dst : Int)
    (m_ptr : Nat) (i : Nat)
    (hnm : ¬ ((procAddr s dst).p_rts_flags.receiving = true ∧
              ¬ (procAddr s dst).p_rts_flags.sending = true ∧
              ((procAddr s dst).p_getfrom = ANY ∨
               (procAddr s dst).p_getfrom = caller)))
    (hfind : findNtfMatch s.notify_buffer caller (s.mem m_ptr).m_type
      (procAddr s dst).p_ntf_q = some i) :
    miniNotify env s caller dst m_ptr = (OK, { s with
      notify_buffer := s.notify_buffer.set i
        { s.notify_buffer.getD i default with
          n_flags := (s.mem m_ptr).notify_flags,
          n_arg := (s.mem m_ptr).notify_arg } }) := by
  unfold miniNotify
  dsimp only
  rw [if_neg hnm, hfind]

theorem miniNotify_enospc (env : KEnv) (s : KState) (caller dst : Int)
    (m_ptr : Nat)
    (hnm : ¬ ((procAddr s dst).p_rts_flags.receiving = true ∧
              ¬ (procAddr s dst).p_rts_flags.sending = true ∧
              ((procAddr s dst).p_getfrom = ANY ∨
               (procAddr s dst).p_getfrom = caller)))
    (hnof : findNtfMatch s.notify_buffer caller (s.mem m_ptr).m_type
      (procAddr s dst).p_ntf_q = none)
    (halloc : allocBit s.notify_bitmap = none) :
    miniNotify env s caller dst m_ptr = (ENOSPC, s) := by
  unfold miniNotify
  dsimp only
  rw [if_neg hnm, hnof, halloc]

/-- The slot update of `mini_notify`'s fresh-allocation path: append the
new record's index at the tail of the slot's `p_ntf_q`. -/
def ntfAppend (idx : Nat) : Proc -> Proc := fun p =>
  { p with p_ntf_q := p.p_ntf_q ++ [idx] }

theorem miniNotify_fresh (env : KEnv) (s : KState) (caller dst : Int)
    (m_ptr : Nat) (idx : Nat)
    (hnm : ¬ ((procAddr s dst).p_rts_flags.receiving = true ∧
              ¬ (procAddr s dst).p_rts_flags.sending = true ∧
              ((procAddr s dst).p_getfrom = ANY ∨
               (procAddr s dst).p_getfrom = caller)))
    (hnof : findNtfMatch s.notify_buffer caller (s.mem m_ptr).m_type
      (procAddr s dst).p_ntf_q = none)
    (halloc : allocBit s.notify_bitmap = some idx) :
    miniNotify env s caller dst m_ptr = (OK,
      updateProc { s with
        notify_bitmap := s.notify_bitmap.set idx true,
        notify_buffer := s.notify_buffer.set idx
          { n_source := caller, n_type := (s.mem m_ptr).m_type,
            n_flags := (s.mem m_ptr).notify_flags,
            n_arg := (s.mem m_ptr).notify_arg } } dst (ntfAppend idx)) := by
  unfold miniNotify
  dsimp only
  rw [if_neg hnm, hnof, halloc]
  rfl

/-- Claim C5: with the destination not in a matching receiving state, two
successive `mini_notify` calls from the same source carrying the same
notification type leave exactly one record for that (source, type) on the
destination's `p_ntf_q` — the record allocated and appended at the tail by
the first call, overwritten in place with the second call's flags and arg
by the second call, which returns `OK` without touching the allocation
bitmap.  In general the replacement path overwrites in place and returns
`OK` without allocating, and only when no (source, type) match exists is a
fresh record allocated, failing `ENOSPC` when the pool is exhausted. -/
theorem mini_notify_replacement (env : KEnv) (s : KState) (caller dst : Int)
    (mp1 mp2 : Nat) (idx : Nat)
    (hds : slotIdx dst < s.procs.length)
    (hnm : ¬ ((procAddr s dst).p_rts_flags.receiving = true ∧
              ¬ (procAddr s dst).p_rts_flags.sending = true ∧
              ((procAddr s dst).p_getfrom = ANY ∨
               (procAddr s dst).p_getfrom = caller)))
    (htype : (s.mem mp2).m_type = (s.mem mp1).m_type)
    (hnof : findNtfMatch s.notify_buffer caller (s.mem mp1).m_type
      (procAddr s dst).p_ntf_q = none)
    (halloc : allocBit s.notify_bitmap = some idx)
    (hidxq : idx ∉ (procAddr s dst).p_ntf_q)
    (hidxlen : idx < s.notify_buffer.length) :
    (∃ s1 s2,
      miniNotify env s caller dst mp1 = (OK, s1) ∧
      miniNotify env s1 caller dst mp2 = (OK, s2) ∧
      (procAddr s1 dst).p_ntf_q = (procAddr s dst).p_ntf_q ++ [idx] ∧
      (procAddr s2 dst).p_ntf_q = (procAddr s dst).p_ntf_q ++ [idx] ∧
      s2.notify_bitmap = s1.notify_bitmap ∧
      ntfCount s2.notify_buffer caller (s.mem mp1).m_type
        (procAddr s2 dst).p_ntf_q = 1 ∧
      (s2.notify_buffer.getD idx default).n_flags = (s.mem mp2).notify_flags ∧
      (s2.notify_buffer.getD idx default).n_arg = (s.mem mp2).notify_arg) ∧
    (∀ (t : KState) (c d : Int) (mp j : Nat),
      ¬ ((procAddr t d).p_rts_flags.receiving = true ∧
         ¬ (procAddr t d).p_rts_flags.sending = true ∧
         ((procAddr t d).p_getfrom = ANY ∨ (procAddr t d).p_getfrom = c)) →
      findNtfMatch t.notify_buffer c (t.mem mp).m_type
        (procAddr t d).p_ntf_q = some j →
      miniNotify env t c d mp = (OK, { t with
        notify_buffer := t.notify_buffer.set j
          { t.notify_buffer.getD j default with
            n_flags := (t.mem mp).notify_flags,
            n_arg := (t.mem mp).notify_arg } })) ∧
    (∀ (t : KState) (c d : Int) (mp : Nat),
      ¬ ((procAddr t d).p_rts_flags.receiving = true ∧
         ¬ (procAddr t d).p_rts_flags.sending = true ∧
         ((procAddr t d).p_getfrom = ANY ∨ (procAddr t d).p_getfrom = c)) →
      findNtfMatch t.notify_buffer c (t.mem mp).m_type
        (procAddr t d).p_ntf_q = none →
      allocBit t.notify_bitmap = none →
      miniNotify env t c d mp = (ENOSPC, t)) := by
  refine ⟨?_, fun t c d mp j h1 h2 => miniNotify_replace env t c d mp j h1 h2,
    fun t c d mp h1 h2 h3 => miniNotify_enospc env t c d mp h1 h2 h3⟩
  have h1 := miniNotify_fresh env s caller dst mp1 idx hnm hnof halloc
  set rec1 : Notification :=
    { n_source := caller, n_type := (s.mem mp1).m_type,
      n_flags := (s.mem mp1).notify_flags,
      n_arg := (s.mem mp1).notify_arg } with hrec1
  set s1a : KState := { s with
    notify_bitmap := s.notify_bitmap.set idx true,
    notify_buffer := s.notify_buffer.set idx rec1 } with hs1a
  set s1 : KState := updateProc s1a dst (ntfAppend idx) with hs1
  have hds1a : slotIdx dst < s1a.procs.length := hds
  have haddr1a : procAddr s1a dst = procAddr s dst := rfl
  have hq1 : (procAddr s1 dst).p_ntf_q = (procAddr s dst).p_ntf_q ++ [idx] := by
    rw [hs1, procAddr_updateProc_self s1a dst _ hds1a]
    rfl
  have hrts1 : (procAddr s1 dst).p_rts_flags = (procAddr s dst).p_rts_flags := by
    rw [hs1]
    exact (procAddr_updateProc_field s1a dst (ntfAppend idx) dst
      (fun p => p.p_rts_flags) (fun p => rfl)).trans rfl
  have hgf1 : (procAddr s1 dst).p_getfrom = (procAddr s dst).p_getfrom := by
    rw [hs1]
    exact (procAddr_updateProc_field s1a dst (ntfAppend idx) dst
      (fun p => p.p_getfrom) (fun p => rfl)).trans rfl
  have hnm1 : ¬ ((procAddr s1 dst).p_rts_flags.receiving = true ∧
      ¬ (procAddr s1 dst).p_rts_flags.sending = true ∧
      ((procAddr s1 dst).p_getfrom = ANY ∨
       (procAddr s1 dst).p_getfrom = caller)) := by
    rw [hrts1, hgf1]
    exact hnm
  have hbuf1 : s1.notify_buffer = s.notify_buffer.set idx rec1 := rfl
  have hmem1 : s1.mem = s.mem := rfl
  have hfind2 : findNtfMatch s1.notify_buffer caller (s1.mem mp2).m_type
      (procAddr s1 dst).p_ntf_q = some idx := by
    rw [hq1, hbuf1, hmem1, htype]
    have hqnone : findNtfMatch (s.notify_buffer.set idx rec1) caller
        (s.mem mp1).m_type (procAddr s dst).p_ntf_q = none := by
      rw [findNtfMatch_congr (fun i hi => List.getD_set_ne
        (show idx ≠ i from fun he => hidxq (by rw [he]; exact hi)))]
      exact hnof
    rw [findNtfMatch_append_none hqnone [idx], findNtfMatch_cons,
      List.getD_set_self hidxlen]
    rw [if_pos ⟨rfl, rfl⟩]
  have h2 := miniNotify_replace env s1 caller dst mp2 idx hnm1 hfind2
  refine ⟨s1, _, h1, h2, hq1, ?_, rfl, ?_, ?_, ?_⟩
  · exact hq1
  · show ntfCount (s1.notify_buffer.set idx _) caller (s.mem mp1).m_type
      (procAddr s1 dst).p_ntf_q = 1
    rw [hq1]
    unfold ntfCount
    rw [List.filter_append]
    have hfq : ((procAddr s dst).p_ntf_q).filter
        (ntfMatches (s1.notify_buffer.set idx
          { s1.notify_buffer.getD idx default with
            n_flags := (s1.mem mp2).notify_flags,
            n_arg := (s1.mem mp2).notify_arg }) caller (s.mem mp1).m_type) =
        [] := by
      rw [List.filter_eq_nil_iff]
      intro a ha
      have hne : idx ≠ a := fun he => hidxq (he ▸ ha)
      have heq : (s1.notify_buffer.set idx
          { s1.notify_buffer.getD idx default with
            n_flags := (s1.mem mp2).notify_flags,
            n_arg := (s1.mem mp2).notify_arg }).getD a default =
          s.notify_buffer.getD a default := by
        rw [List.getD_set_ne hne, hbuf1, List.getD_set_ne hne]
      unfold ntfMatches
      rw [heq]
      have := findNtfMatch_none_all hnof a ha
      unfold ntfMatches at this
      rw [this]
      exact Bool.false_ne_true
    rw [hfq]
    have hidxlen1 : idx < s1.notify_buffer.length := by
      rw [hbuf1, List.length_set]
      exact hidxlen
    have hm : ntfMatches (s1.notify_buffer.set idx
        { s1.notify_buffer.getD idx default with
          n_flags := (s1.mem mp2).notify_flags,
          n_arg := (s1.mem mp2).notify_arg }) caller (s.mem mp1).m_type idx =
        true := by
      unfold ntfMatches
      rw [List.getD_set_self hidxlen1]
      rw [hbuf1, List.getD_set_self hidxlen]
      exact decide_eq_true ⟨rfl, rfl⟩
    show ([] ++ List.filter _ [idx]).length = 1
    rw [List.nil_append]
    show (List.filter _ (idx :: [])).length = 1
    rw [List.filter_cons]
    rw [hm]
    rfl
  · show ((s1.notify_buffer.set idx _).getD idx default).n_flags =
      (s.mem mp2).notify_flags
    have hidxlen1 : idx < s1.notify_buffer.length := by
      rw [hbuf1, List.length_set]
      exact hidxlen
    rw [List.getD_set_self hidxlen1]
    rfl
  · show ((s1.notify_buffer.set idx _).getD idx default).n_arg =
      (s.mem mp2).notify_arg
    have hidxlen1 : idx < s1.notify_buffer.length := by
      rw [hbuf1, List.length_set]
      exact hidxlen
    rw [List.getD_set_self hidxlen1]
    rfl

/-- Concrete state for the C5 witness: destination 0 not receiving, an
empty `p_ntf_q`, and a two-record notification pool with both records
free. -/
def stC5 : KState :=
  { procs := List.replicate 6 default, mem := mem0, rdy := [[0]],
    proc_ptr := 0, next_ptr := 0, bill_ptr := 0,
    notify_buffer := [default, default], notify_bitmap := [false, false] }

/-- Witness for C5: two notifies from 1 to the non-receiving 0 with the
same type leave one matching record, carrying the second message's flags
and arg, with no second allocation. -/
theorem mini_notify_replacement_witness :
    (∃ s1 s2,
      miniNotify env0 stC5 1 0 5 = (OK, s1) ∧
      miniNotify env0 s1 1 0 6 = (OK, s2) ∧
      (procAddr s1 0).p_ntf_q = (procAddr stC5 0).p_ntf_q ++ [0] ∧
      (procAddr s2 0).p_ntf_q = (procAddr stC5 0).p_ntf_q ++ [0] ∧
      s2.notify_bitmap = s1.notify_bitmap ∧
      ntfCount s2.notify_buffer 1 (stC5.mem 5).m_type
        (procAddr s2 0).p_ntf_q = 1 ∧
      (s2.notify_buffer.getD 0 default).n_flags = (stC5.mem 6).notify_flags ∧
      (s2.notify_buffer.getD 0 default).n_arg = (stC5.mem 6).notify_arg) ∧
    (∀ (t : KState) (c d : Int) (mp j : Nat),
      ¬ ((procAddr t d).p_rts_flags.receiving = true ∧
         ¬ (procAddr t d).p_rts_flags.sending = true ∧
         ((procAddr t d).p_getfrom = ANY ∨ (procAddr t d).p_getfrom = c)) →
      findNtfMatch t.notify_buffer c (t.mem mp).m_type
        (procAddr t d).p_ntf_q = some j →
      miniNotify env0 t c d mp = (OK, { t with
        notify_buffer := t.notify_buffer.set j
          { t.notify_buffer.getD j default with
            n_flags := (t.mem mp).notify_flags,
            n_arg := (t.mem mp).notify_arg } })) ∧
    (∀ (t : KState) (c d : Int) (mp : Nat),
      ¬ ((procAddr t d).p_rts_flags.receiving = true ∧
         ¬ (procAddr t d).p_rts_flags.sending = true ∧
         ((procAddr t d).p_getfrom = ANY ∨ (procAddr t d).p_getfrom = c)) →
      findNtfMatch t.notify_buffer c (t.mem mp).m_type
        (procAddr t d).p_ntf_q = none →
      allocBit t.notify_bitmap = none →
      miniNotify env0 t c d mp = (ENOSPC, t)) :=
  mini_notify_replacement env0 stC5 1 0 5 6 0 (by decide) (by decide)
    (by decide) (by decide) (by decide) (by decide) (by decide)

/-! ### Claim about `sched` (C7) -/

theorem procAddr_ifPick (c : Prop) [Decidable c] (v : KState) (n : Int) :
    procAddr (if c then pickProc v else v) n = procAddr v n := by
  split
  · rw [procAddr_pickProc]
  · rfl

theorem rdy_ifPick (c : Prop) [Decidable c] (v : KState) :
    (if c then pickProc v else v).rdy = v.rdy := by
  split
  · rw [pickProc_rdy]
  · rfl

theorem procs_ifPick (c : Prop) [Decidable c] (v : KState) :
    (if c then pickProc v else v).procs = v.procs := by
  split
  · rw [pickProc_procs]
  · rfl

theorem mem_rotateQ {l : List Int} {a : Int} : a ∈ rotateQ l ↔ a ∈ l := by
  cases l with
  | nil => rfl
  | cons x xs => simp [rotateQ, or_comm]

theorem pickProc_next_ptr_of_pickFrom {s : KState} {m : Int}
    (h : pickFrom s.rdy = some m) : (pickProc s).next_ptr = m := by
  unfold pickProc
  rw [h]

theorem List.getD_of_length_le {α : Type _} {l : List α} {i : Nat} {d : α}
    (h : l.length ≤ i) : l.getD i d = d := by
  rw [List.getD_eq_getElem?_getD, List.getElem?_eq_none h]
  rfl

/-- The queue unlinking of `unready`: remove the first occurrence of the
process from the queue of its priority. -/
def eraseReady (s : KState) (n : Int) : KState :=
  { s with
    rdy := s.rdy.set (procAddr s n).p_priority ((s.rdy.getD (procAddr s n).p_priority []).erase n) }

/-- The slot update at the end of `unready`: reset the priority to the
ceiling and refill the full-quantum budget for it. -/
def unreadyReset (env : KEnv) : Proc → Proc := fun p =>
  { p with p_priority := p.p_max_priority,
           p_full_quantums := env.quantums p.p_max_priority }

theorem unreadyK_eq (env : KEnv) (s : KState) (n : Int) (hn : 0 ≤ n) :
    unreadyK env s n = some (updateProc
      (if n ∈ s.rdy.getD (procAddr s n).p_priority [] ∧
          (n = s.proc_ptr ∨ n = s.next_ptr)
       then pickProc (eraseReady s n)
       else eraseReady s n) n (unreadyReset env)) := by
  unfold unreadyK
  rw [if_neg (fun hc => absurd hc.1 (not_lt.mpr hn))]
  rfl

theorem readyK_rdy (s : KState) (n : Int) :
    (readyK s n).rdy = s.rdy.set (procAddr s n).p_priority
      (enqueuePolicy (s.rdy.getD (procAddr s n).p_priority []) n
        (procAddr s n).p_priv.s_flags_rdy_q_head) := by
  unfold readyK
  rw [pickProc_rdy]

theorem srr_procAddr (env : KEnv) (s2 : KState) (n : Int)
    (hlen : slotIdx n < s2.procs.length) :
    procAddr (schedRotateRefill env s2 n) n = schedSetTicks (procAddr s2 n) := by
  unfold schedRotateRefill
  rw [procAddr_pickProc]
  split
  · exact procAddr_updateProc_self _ n _ hlen
  · exact procAddr_updateProc_self s2 n _ hlen

theorem srr_rdy (env : KEnv) (s2 : KState) (n : Int) :
    (schedRotateRefill env s2 n).rdy =
      if (s2.rdy.getD (procAddr s2 n).p_priority []).head? = some n
      then s2.rdy.set (procAddr s2 n).p_priority
        (rotateQ (s2.rdy.getD (procAddr s2 n).p_priority []))
      else s2.rdy := by
  unfold schedRotateRefill
  rw [pickProc_rdy, updateProc_rdy]
  split
  · rfl
  · rfl

theorem srr_next (env : KEnv) (s2 : KState) (n m : Int)
    (h : pickFrom (schedRotateRefill env s2 n).rdy = some m) :
    (schedRotateRefill env s2 n).next_ptr = m := by
  unfold schedRotateRefill at h ⊢
  rw [pickProc_rdy] at h
  exact pickProc_next_ptr_of_pickFrom h

theorem srr_rdy_getD_other (env : KEnv) (s2 : KState) (n : Int) (q2 : Nat)
    (hq2 : q2 ≠ (procAddr s2 n).p_priority) :
    (schedRotateRefill env s2 n).rdy.getD q2 [] = s2.rdy.getD q2 [] := by
  rw [srr_rdy]
  split
  · rw [List.getD_set_ne (fun he => hq2 he.symm)]
  · rfl

theorem srr_rdy_mem_prio (env : KEnv) (s2 : KState) (n a : Int) :
    a ∈ (schedRotateRefill env s2 n).rdy.getD (procAddr s2 n).p_priority [] ↔
      a ∈ s2.rdy.getD (procAddr s2 n).p_priority [] := by
  rw [srr_rdy]
  split
  · by_cases hlt : (procAddr s2 n).p_priority < s2.rdy.length
    · rw [List.getD_set_self hlt, mem_rotateQ]
    · rw [List.set_eq_of_length_le (Nat.le_of_not_lt hlt)]
  · rfl

theorem schedDemote_eq (env : KEnv) (s0 : KState) (n : Int) (q : Nat)
    (hn : 0 ≤ n) :
    schedDemote env s0 n q = some (readyK (updateProc (updateProc
      (if n ∈ s0.rdy.getD (procAddr s0 n).p_priority [] ∧
          (n = s0.proc_ptr ∨ n = s0.next_ptr)
       then pickProc (eraseReady s0 n)
       else eraseReady s0 n) n (unreadyReset env)) n (schedSetPrio q)) n) := by
  unfold schedDemote
  rw [unreadyK_eq env s0 n hn]

/-- Claim C7: `sched` leaves a non-`PREEMPTIBLE` process entirely
unchanged; for a `PREEMPTIBLE` process whose decremented `p_full_quantums`
stays positive, the priority is unchanged, `p_full_quantums` holds the
decrement, `p_sched_ticks` is refilled from `p_quantum_size`, the ready
queue of the process's priority is rotated head-to-tail exactly when the
process is at its head, and `pick_proc` elects the new `next_ptr` from the
resulting queues; and for a `PREEMPTIBLE` process whose decrement reaches
0 with demotion possible (`p_priority + 1 < IDLE_Q`), the process moves to
priority `p_priority + 1` — gone from the old level's queue, present in
the new level's queue — with `p_full_quantums` reset to the new level's
`QUANTUMS` budget, `p_sched_ticks` refilled, and `pick_proc` run. -/
theorem sched_behaviour (env : KEnv) (s : KState) (n : Int)
    (hns : slotIdx n < s.procs.length) :
    (¬ (procAddr s n).p_priv.s_flags_preemptible = true →
      schedK env s n = some s) ∧
    ((procAddr s n).p_priv.s_flags_preemptible = true →
     ¬ (procAddr s n).p_full_quantums - 1 ≤ 0 →
     ∃ s4, schedK env s n = some s4 ∧
       (procAddr s4 n).p_priority = (procAddr s n).p_priority ∧
       (procAddr s4 n).p_full_quantums = (procAddr s n).p_full_quantums - 1 ∧
       (procAddr s4 n).p_sched_ticks = (procAddr s n).p_quantum_size ∧
       ((s.rdy.getD (procAddr s n).p_priority []).head? = some n →
         s4.rdy = s.rdy.set (procAddr s n).p_priority
           (rotateQ (s.rdy.getD (procAddr s n).p_priority []))) ∧
       (¬ (s.rdy.getD (procAddr s n).p_priority []).head? = some n →
         s4.rdy = s.rdy) ∧
       (∀ m, pickFrom s4.rdy = some m → s4.next_ptr = m)) ∧
    ((procAddr s n).p_priv.s_flags_preemptible = true →
     (procAddr s n).p_full_quantums - 1 ≤ 0 →
     (procAddr s n).p_priority + 1 < IDLE_Q →
     0 ≤ n →
     (procAddr s n).p_priority + 1 < s.rdy.length →
     (s.rdy.getD (procAddr s n).p_priority []).count n ≤ 1 →
     ∃ s4, schedK env s n = some s4 ∧
       (procAddr s4 n).p_priority = (procAddr s n).p_priority + 1 ∧
       (procAddr s4 n).p_full_quantums =
         env.quantums ((procAddr s n).p_priority + 1) ∧
       (procAddr s4 n).p_sched_ticks = (procAddr s n).p_quantum_size ∧
       n ∈ s4.rdy.getD ((procAddr s n).p_priority + 1) [] ∧
       n ∉ s4.rdy.getD (procAddr s n).p_priority [] ∧
       (∀ m, pickFrom s4.rdy = some m → s4.next_ptr = m)) := by
  refine ⟨?_, ?_, ?_⟩
  · intro hp
    unfold schedK
    rw [if_pos hp]
  · intro hp hfq
    have h1 : ¬ ¬ (procAddr s n).p_priv.s_flags_preemptible = true :=
      fun hc => hc hp
    unfold schedK
    rw [if_neg h1]
    simp only [if_neg hfq]
    set s0 : KState := updateProc s n schedDecFq with hs0
    have hns0 : slotIdx n < s0.procs.length := by
      rw [hs0]
      simpa using hns
    have haddr0 : procAddr s0 n = schedDecFq (procAddr s n) := by
      rw [hs0]
      exact procAddr_updateProc_self s n _ hns
    have hq0 : (procAddr s0 n).p_priority = (procAddr s n).p_priority := by
      rw [haddr0]
      rfl
    have hrdy0 : s0.rdy = s.rdy := rfl
    refine ⟨_, rfl, ?_, ?_, ?_, ?_, ?_, fun m hm => srr_next env s0 n m hm⟩
    · rw [srr_procAddr env s0 n hns0]
      show (procAddr s0 n).p_priority = (procAddr s n).p_priority
      exact hq0
    · rw [srr_procAddr env s0 n hns0]
      show (procAddr s0 n).p_full_quantums = (procAddr s n).p_full_quantums - 1
      rw [haddr0]
      rfl
    · rw [srr_procAddr env s0 n hns0]
      show (procAddr s0 n).p_quantum_size = (procAddr s n).p_quantum_size
      rw [haddr0]
      rfl
    · intro hh
      rw [srr_rdy, hq0, hrdy0, if_pos hh]
    · intro hh
      rw [srr_rdy, hq0, hrdy0, if_neg hh]
  · intro hp hfq hdem hn hqlen hcount
    have h1 : ¬ ¬ (procAddr s n).p_priv.s_flags_preemptible = true :=
      fun hc => hc hp
    unfold schedK
    rw [if_neg h1]
    simp only [if_pos hfq]
    set s0 : KState := updateProc s n schedDecFq with hs0
    have hns0 : slotIdx n < s0.procs.length := by
      rw [hs0]
      simpa using hns
    have haddr0 : procAddr s0 n = schedDecFq (procAddr s n) := by
      rw [hs0]
      exact procAddr_updateProc_self s n _ hns
    have hq0 : (procAddr s0 n).p_priority = (procAddr s n).p_priority := by
      rw [haddr0]
      rfl
    have hdem0 : (procAddr s0 n).p_priority + 1 < IDLE_Q := by
      rw [hq0]
      exact hdem
    rw [if_pos hdem0, hq0,
      schedDemote_eq env s0 n ((procAddr s n).p_priority + 1) hn]
    set W : KState :=
      if n ∈ s0.rdy.getD (procAddr s0 n).p_priority [] ∧
          (n = s0.proc_ptr ∨ n = s0.next_ptr)
      then pickProc (eraseReady s0 n)
      else eraseReady s0 n with hW
    set U : KState := updateProc W n (unreadyReset env) with hU
    set B : KState :=
      updateProc U n (schedSetPrio ((procAddr s n).p_priority + 1)) with hB
    have hWlen : slotIdx n < W.procs.length := by
      rw [hW, procs_ifPick]
      exact hns0
    have haddrW : procAddr W n = procAddr s0 n := by
      rw [hW]
      exact (procAddr_ifPick _ _ _).trans rfl
    have hWrdy : W.rdy = s.rdy.set (procAddr s n).p_priority
        ((s.rdy.getD (procAddr s n).p_priority []).erase n) := by
      rw [hW, rdy_ifPick]
      show s0.rdy.set (procAddr s0 n).p_priority
        ((s0.rdy.getD (procAddr s0 n).p_priority []).erase n) = _
      rw [hq0]
      rfl
    have hUlen : slotIdx n < U.procs.length := by
      rw [hU]
      simpa using hWlen
    have haddrU : procAddr U n = unreadyReset env (procAddr W n) := by
      rw [hU]
      exact procAddr_updateProc_self W n _ hWlen
    have hBlen : slotIdx n < B.procs.length := by
      rw [hB]
      simpa using hUlen
    have haddrB : procAddr B n =
        schedSetPrio ((procAddr s n).p_priority + 1) (procAddr U n) := by
      rw [hB]
      exact procAddr_updateProc_self U n _ hUlen
    have hqB : (procAddr B n).p_priority = (procAddr s n).p_priority + 1 := by
      rw [haddrB]
      rfl
    have hBrdy : B.rdy = W.rdy := rfl
    set S1 : KState := readyK B n with hS1
    have hS1len : slotIdx n < S1.procs.length := by
      rw [hS1, readyK_procs]
      exact hBlen
    have haddrS1 : procAddr S1 n = procAddr B n := by
      rw [hS1]
      exact procAddr_readyK B n n
    have hS1rdy : S1.rdy = B.rdy.set ((procAddr s n).p_priority + 1)
        (enqueuePolicy (B.rdy.getD ((procAddr s n).p_priority + 1) []) n
          (procAddr B n).p_priv.s_flags_rdy_q_head) := by
      rw [hS1, readyK_rdy, hqB]
    set S2 : KState := updateProc S1 n (schedRefillFq env) with hS2
    have hS2len : slotIdx n < S2.procs.length := by
      rw [hS2]
      simpa using hS1len
    have haddrS2 : procAddr S2 n = schedRefillFq env (procAddr S1 n) := by
      rw [hS2]
      exact procAddr_updateProc_self S1 n _ hS1len
    have hqS2 : (procAddr S2 n).p_priority = (procAddr s n).p_priority + 1 := by
      rw [haddrS2]
      show (procAddr S1 n).p_priority = _
      rw [haddrS1, hqB]
    have hS2rdy : S2.rdy = S1.rdy := rfl
    have hBrdyLen : B.rdy.length = s.rdy.length := by
      rw [hBrdy, hWrdy, List.length_set]
    refine ⟨_, rfl, ?_, ?_, ?_, ?_, ?_, fun m hm => srr_next env S2 n m hm⟩
    · rw [srr_procAddr env S2 n hS2len]
      show (procAddr S2 n).p_priority = _
      exact hqS2
    · rw [srr_procAddr env S2 n hS2len]
      show (procAddr S2 n).p_full_quantums = _
      rw [haddrS2]
      show env.quantums (procAddr S1 n).p_priority = _
      rw [haddrS1, hqB]
    · rw [srr_procAddr env S2 n hS2len]
      show (procAddr S2 n).p_quantum_size = _
      rw [haddrS2]
      show (procAddr S1 n).p_quantum_size = _
      rw [haddrS1, haddrB]
      show (procAddr U n).p_quantum_size = _
      rw [haddrU]
      show (procAddr W n).p_quantum_size = _
      rw [haddrW, haddr0]
      rfl
    · have hmem := (srr_rdy_mem_prio env S2 n n)
      rw [hqS2] at hmem
      rw [hmem, hS2rdy, hS1rdy,
        List.getD_set_self (by rw [hBrdyLen]; exact hqlen)]
      exact mem_enqueuePolicy.mpr (Or.inr rfl)
    · have hne : (procAddr s n).p_priority ≠ (procAddr S2 n).p_priority := by
        rw [hqS2]
        omega
      rw [srr_rdy_getD_other env S2 n _ hne, hS2rdy, hS1rdy,
        List.getD_set_ne (by omega), hBrdy, hWrdy]
      by_cases hlt : (procAddr s n).p_priority < s.rdy.length
      · rw [List.getD_set_self hlt]
        intro hmem
        have hc1 := List.count_erase_self n
          (s.rdy.getD (procAddr s n).p_priority [])
        have hc2 : ((s.rdy.getD (procAddr s n).p_priority []).erase n).count n
            = 0 := by omega
        exact (List.count_eq_zero.mp hc2) hmem
      · rw [List.set_eq_of_length_le (Nat.le_of_not_lt hlt),
          List.getD_of_length_le (Nat.le_of_not_lt hlt)]
        exact List.not_mem_nil n

/-- A `PREEMPTIBLE` privilege block for the scheduling examples. -/
def privC7 : Priv :=
  { s_flags_preemptible := true, s_flags_billable := false,
    s_flags_rdy_q_head := false, s_call_mask := 0, s_send_mask := [],
    s_id := 0, s_notify_pending := [], s_int_pending := 0, s_sig_pending := 0,
    s_stack_guard_ok := true }

/-- A preemptible process at priority 1 with 5 full quantums left. -/
def pC7b : Proc :=
  { p_rts_flags := default, p_getfrom := 0, p_sendto := 0, p_messbuf := 0,
    p_caller_q := [], p_ntf_q := [], p_priority := 1, p_max_priority := 1,
    p_full_quantums := 5, p_sched_ticks := 3, p_quantum_size := 40,
    p_priv := privC7, p_memmap_d_vir := 0, p_memmap_s_vir := 0,
    p_memmap_s_len := 0 }

/-- The same process at priority 0 with its last full quantum. -/
def pC7c : Proc := { pC7b with p_priority := 0, p_full_quantums := 1 }

/-- A non-preemptible process table; process 0 sits in slot 4. -/
def stC7a : KState :=
  mkState [default, default, default, default, default] [[]]

/-- Process 0 preemptible at priority 1, alone on queue 1. -/
def stC7b : KState :=
  mkState [default, default, default, default, pC7b] [[], [0], []]

/-- Process 0 preemptible at priority 0 on its last quantum. -/
def stC7c : KState :=
  mkState [default, default, default, default, pC7c] [[0], [], []]

theorem sched_behaviour_witness :
    schedK env0 stC7a 0 = some stC7a ∧
    (∃ s4, schedK env0 stC7b 0 = some s4 ∧
      (procAddr s4 0).p_priority = (procAddr stC7b 0).p_priority ∧
      (procAddr s4 0).p_full_quantums =
        (procAddr stC7b 0).p_full_quantums - 1 ∧
      (procAddr s4 0).p_sched_ticks = (procAddr stC7b 0).p_quantum_size ∧
      ((stC7b.rdy.getD (procAddr stC7b 0).p_priority []).head? = some 0 →
        s4.rdy = stC7b.rdy.set (procAddr stC7b 0).p_priority
          (rotateQ (stC7b.rdy.getD (procAddr stC7b 0).p_priority []))) ∧
      (¬ (stC7b.rdy.getD (procAddr stC7b 0).p_priority []).head? = some 0 →
        s4.rdy = stC7b.rdy) ∧
      (∀ m, pickFrom s4.rdy = some m → s4.next_ptr = m)) ∧
    (∃ s4, schedK env0 stC7c 0 = some s4 ∧
      (procAddr s4 0).p_priority = (procAddr stC7c 0).p_priority + 1 ∧
      (procAddr s4 0).p_full_quantums =
        env0.quantums ((procAddr stC7c 0).p_priority + 1) ∧
      (procAddr s4 0).p_sched_ticks = (procAddr stC7c 0).p_quantum_size ∧
      (0 : Int) ∈ s4.rdy.getD ((procAddr stC7c 0).p_priority + 1) [] ∧
      (0 : Int) ∉ s4.rdy.getD (procAddr stC7c 0).p_priority [] ∧
      (∀ m, pickFrom s4.rdy = some m → s4.next_ptr = m)) :=
  ⟨(sched_behaviour env0 stC7a 0 (by decide)).1 (by decide),
   (sched_behaviour env0 stC7b 0 (by decide)).2.1 (by decide) (by decide),
   (sched_behaviour env0 stC7c 0 (by decide)).2.2 (by decide) (by decide)
     (by decide) (by decide) (by decide) (by decide)⟩

end Minix
